import Mathlib

/-! Namespace launchers: `userns_child_exec.c`, `ns_child_exec.c`, `multi_pidns.c`.

A shallow embedding of the launcher programs of the repository.  A process is
modelled by the sequence of system calls and messages it issues (its trace);
the results of the system calls are supplied by an environment record, so that
every run of the C program corresponds to one choice of environment.

Conventions.
* A C string is the list of its bytes before the terminating NUL.
* The sequence of values returned by `getopt(3)` (option character and
  `optarg`) and the remaining command words `argv[optind..]` are the inputs of
  `main`; `getopt` itself is C library code.
* File descriptors returned by `open` are identified with the path they were
  opened from; only the test `fd == -1` of the source is observable.
* `long` is 64 bits wide (LP64), so `(long) getuid()` is the user ID itself.
* `exit` ends the trace of a process.  What the kernel does at that point
  (closing the descriptors the process still holds) is part of the model of the
  pipe in the section on parent and child, not of the C code.
* A process created by `clone` without `CLONE_VM` starts on a copy of its
  parent's memory.  For `multi_pidns` the traces of the processes of a run are
  collected outermost first, each child found through the `clone` event of its
  parent; the depth to which children are followed is a parameter, and the
  theorem on the recursion holds for every depth that is large enough.
-/

namespace Namespaces

/-- A C string: its bytes up to, not including, the terminating NUL. -/
abbrev CString := List Char

/-! ## Constants of the C library and of Linux (x86-64 values) -/

def EXIT_SUCCESS : Nat := 0
def EXIT_FAILURE : Nat := 1
def ENOENT : Nat := 2
def PATH_MAX : Nat := 4096
def SIGCHLD : Nat := 17
def SIGSEGV : Nat := 11
def CLONE_NEWNS : Nat := 0x00020000
def CLONE_NEWUTS : Nat := 0x04000000
def CLONE_NEWIPC : Nat := 0x08000000
def CLONE_NEWUSER : Nat := 0x10000000
def CLONE_NEWPID : Nat := 0x20000000
def CLONE_NEWNET : Nat := 0x40000000

/-! ## Traces -/

/-- One observable action of a process. -/
inductive Event where
  /-- `printf(format, args...)`; numeric arguments are given already formatted. -/
  | stdout (format : String) (args : List CString)
  /-- `fprintf(stderr, format, args...)`; the `strerror(errno)` argument is left out. -/
  | stderr (format : String) (args : List CString)
  /-- `perror(msg)`. -/
  | perror (msg : String)
  /-- `pipe(args.pipe_fd)`. -/
  | pipe
  /-- `clone(childFunc, stack, flags, arg)`. -/
  | clone (flags : Nat)
  /-- `open(path, O_RDWR)`. -/
  | open_rdwr (path : CString)
  /-- `write(fd, buf, count)` on the descriptor opened from `path`. -/
  | write (path : CString) (buf : CString) (count : Nat)
  /-- `close(fd)` on the descriptor opened from `path`. -/
  | close (path : CString)
  /-- `close(args.pipe_fd[1])`: close this process's write end of the pipe. -/
  | close_pipe_wr
  /-- `read(args.pipe_fd[0], &ch, 1)`. -/
  | read_pipe
  /-- `execvp(file, argv)`. -/
  | execvp (file : CString) (argv : List CString)
  /-- `waitpid(pid, NULL, 0)`. -/
  | waitpid (pid : Int)
  /-- `exit(status)`: the process terminates. -/
  | exit (status : Nat)
  /-- `clone(childFunc, stack, flags, (void *) arg)` with an integer argument. -/
  | clone_with (flags : Nat) (arg : Int)
  /-- `mkdir(path, mode)`. -/
  | mkdir (path : CString) (mode : Nat)
  /-- `mount(source, target, fstype, 0, NULL)`. -/
  | mount (source target fstype : CString)
  /-- `execlp(file, arg0, ..., NULL)`. -/
  | execlp (file : CString) (args : List CString)
  /-- The process is terminated by the signal. -/
  | killed (signal : Nat)
  deriving DecidableEq, Repr

/-- Results of the system calls made by the launching (parent) process. -/
structure Env where
  /-- Return value of `pipe`: 0 or -1. -/
  pipe_ret : Int
  /-- Return value of `clone`: the PID of the child, or -1. -/
  clone_ret : Int
  /-- Real user ID of the caller (`uid_t`). -/
  getuid : Nat
  /-- Real group ID of the caller (`gid_t`). -/
  getgid : Nat
  /-- Return value of `open(path, O_RDWR)`: a descriptor, or -1. -/
  open_ret : CString → Int
  /-- Value of `errno` after a failed `open(path, O_RDWR)`. -/
  open_errno : CString → Nat
  /-- Return value of `write(fd, buf, count)` on the file opened from `path`. -/
  write_ret : CString → CString → Nat → Int
  /-- Return value of `waitpid(child_pid, NULL, 0)`. -/
  waitpid_ret : Int
  /-- Exit status with which the child terminates (what `waitpid` would store
  through a non-NULL status pointer). -/
  child_status : Nat

/-- A piece of C code run to its end or to `exit`: the trace it produced, and
its result if control came back (`none` when the process terminated inside). -/
structure Run (α : Type) where
  trace : List Event
  ret : Option α

/-- Sequencing: the continuation runs only when the first part returned. -/
def Run.bind {α β : Type} (x : Run α) (f : α → Run β) : Run β :=
  match x.ret with
  | none => ⟨x.trace, none⟩
  | some a => ⟨x.trace ++ (f a).trace, (f a).ret⟩

instance : Monad Run where
  pure a := ⟨[], some a⟩
  bind := Run.bind

/-- Issue one event and continue. -/
def emit (e : Event) : Run Unit := ⟨[e], some ()⟩

/-- The C library `exit(status)`: control never comes back. -/
def exit {α : Type} (status : Nat) : Run α := ⟨[Event.exit status], none⟩

/-- The end of a process that the kernel terminates with a signal. -/
def killed {α : Type} (signal : Nat) : Run α := ⟨[Event.killed signal], none⟩

/-- The macro `bail(msg)`: `perror(msg); exit(EXIT_FAILURE)`. -/
def bail {α : Type} (msg : String) : Run α := do
  emit (Event.perror msg)
  exit EXIT_FAILURE

/-- Decimal text of a `long`, as printed by `%ld`. -/
def fmt_ld (n : Int) : CString :=
  if n < 0 then '-' :: (Nat.repr n.natAbs).toList else (Nat.repr n.toNat).toList

/-- The library `snprintf(buf, size, ...)`: at most `size - 1` bytes of the
formatted text are stored (followed by NUL). -/
def snprintf (size : Nat) (text : CString) : CString := text.take (size - 1)

/-- The C string held by a buffer: the bytes before its first NUL. -/
def c_str (bytes : List Char) : CString := bytes.takeWhile (fun c => c ≠ Char.ofNat 0)

/-- One value returned by `getopt`, with the `optarg` it set. -/
structure GetoptRet where
  opt : Char
  optarg : CString
  deriving DecidableEq, Repr

/-- A `char *` variable of `main`: NULL, a pointer to an `optarg` string (held
by value: nothing else refers to it), or a pointer to the local `map_buf`. -/
inductive Ptr where
  | null
  | optarg (s : CString)
  | map_buf
  deriving DecidableEq, Repr

/-! ## `userns_child_exec.c` -/

namespace userns_child_exec

/-- `struct child_args`: the command for the child; the two pipe descriptors
are implicit in the events `read_pipe` and `close_pipe_wr`. -/
structure child_args where
  argv : List CString
  deriving DecidableEq, Repr

/-- `usage(name)`: the help text goes to stderr (its fixed lines after the
first are folded into one event), then `exit(EXIT_FAILURE)`. -/
def usage {α : Type} (name : CString) : Run α := do
  emit (Event.stderr "Usage: %s [options] cmd [arg...]\n" [name])
  exit EXIT_FAILURE

/-- The `for` loop of `update_map` (lines 88-90) at index `j`, with `n`
iterations left: `if (mapping[j] == ',') mapping[j] = '\n';`.  The index is an
`int` in the source; a command-line argument is far shorter than `INT_MAX`
bytes, so it does not overflow. -/
def replace_commas : Nat → Nat → CString → CString
  | 0, _, mapping => mapping
  | n + 1, j, mapping =>
      replace_commas n (j + 1)
        (if mapping[j]? = some ',' then mapping.set j '\n' else mapping)

/-- `update_map(mapping, map_file)`.  The string is modified in place; the
value returned is its content afterwards.  The comparison
`write(...) != map_len` is made on integers: a return of -1 differs from every
possible `strlen`. -/
def update_map (env : Env) (mapping : CString) (map_file : CString) : Run CString := do
  let map_len := mapping.length
  let mapping := replace_commas map_len 0 mapping
  emit (Event.open_rdwr map_file)
  if env.open_ret map_file = -1 then
    emit (Event.stderr "ERROR: open %s: %s\n" [map_file])
    exit EXIT_FAILURE
  emit (Event.write map_file mapping map_len)
  if env.write_ret map_file mapping map_len ≠ (map_len : Int) then
    emit (Event.stderr "ERROR: write %s: %s\n" [map_file])
    exit EXIT_FAILURE
  emit (Event.close map_file)
  pure mapping

/-- The path `"/proc/%ld/setgroups"` built by `proc_setgroups_write`. -/
def setgroups_path (child_pid : Int) : CString :=
  snprintf PATH_MAX ("/proc/".toList ++ fmt_ld child_pid ++ "/setgroups".toList)

/-- `proc_setgroups_write(child_pid, str)`.  The early `return` after a failed
`open` is the first branch; nothing in this function terminates the process. -/
def proc_setgroups_write (env : Env) (child_pid : Int) (str : CString) : Run Unit := do
  emit (Event.open_rdwr (setgroups_path child_pid))
  if env.open_ret (setgroups_path child_pid) = -1 then
    if env.open_errno (setgroups_path child_pid) ≠ ENOENT then
      emit (Event.stderr "ERROR: open %s: %s\n" [setgroups_path child_pid])
  else
    emit (Event.write (setgroups_path child_pid) str str.length)
    if env.write_ret (setgroups_path child_pid) str str.length = -1 then
      emit (Event.stderr "ERROR: open %s: %s\n" [setgroups_path child_pid])
    emit (Event.close (setgroups_path child_pid))

/-- Results of the calls made by the cloned child in `childFunc`. -/
structure ChildEnv where
  /-- Return value of `read(args->pipe_fd[0], &ch, 1)`. -/
  read_ret : Int
  /-- Whether `execvp` fails (it returns only then). -/
  execvp_fails : Bool

/-- A successful `execvp`: the program image is replaced, no further code of
this program runs. -/
def replaced {α : Type} : Run α := ⟨[], none⟩

/-- `childFunc(arg)`, the start function of the cloned child. -/
def childFunc (args : child_args) (cenv : ChildEnv) : Run Int := do
  emit Event.close_pipe_wr
  emit Event.read_pipe
  if cenv.read_ret ≠ 0 then
    emit (Event.stderr "Failure in child: read from pipe returned !=0\n" [])
    exit EXIT_FAILURE
  emit (Event.execvp (args.argv.headD []) args.argv)
  if cenv.execvp_fails then bail "execvp" else replaced

/-- The variables of `main` set by the option loop. -/
structure Opts where
  flags : Nat
  verbose : Bool
  map_zero : Bool
  uid_map : Ptr
  gid_map : Ptr
  deriving DecidableEq, Repr

/-- Initial values, lines 180-184. -/
def Opts.init : Opts := ⟨0, false, false, Ptr.null, Ptr.null⟩

/-- One pass through the `switch (opt)` of `main`, lines 194-206. -/
def switch_opt (name : CString) (o : Opts) (r : GetoptRet) : Run Opts :=
  if r.opt = 'i' then pure { o with flags := o.flags ||| CLONE_NEWIPC }
  else if r.opt = 'm' then pure { o with flags := o.flags ||| CLONE_NEWNS }
  else if r.opt = 'n' then pure { o with flags := o.flags ||| CLONE_NEWNET }
  else if r.opt = 'p' then pure { o with flags := o.flags ||| CLONE_NEWPID }
  else if r.opt = 'u' then pure { o with flags := o.flags ||| CLONE_NEWUTS }
  else if r.opt = 'v' then pure { o with verbose := true }
  else if r.opt = 'z' then pure { o with map_zero := true }
  else if r.opt = 'M' then pure { o with uid_map := Ptr.optarg r.optarg }
  else if r.opt = 'G' then pure { o with gid_map := Ptr.optarg r.optarg }
  else if r.opt = 'U' then pure { o with flags := o.flags ||| CLONE_NEWUSER }
  else usage name

/-- The `while ((opt = getopt(...)) != -1)` loop over the values `getopt`
returns. -/
def getopt_loop (name : CString) : List GetoptRet → Opts → Run Opts
  | [], o => pure o
  | r :: rest, o => do
      let o1 ← switch_opt name o r
      getopt_loop name rest o1

/-- The condition of the `if` at lines 210-211. -/
def inconsistent (o : Opts) : Prop :=
  ((o.uid_map ≠ Ptr.null ∨ o.gid_map ≠ Ptr.null ∨ o.map_zero = true) ∧ ¬ (o.flags &&& CLONE_NEWUSER ≠ 0))
    ∨ (o.map_zero = true ∧ (o.uid_map ≠ Ptr.null ∨ o.gid_map ≠ Ptr.null))

instance (o : Opts) : Decidable (inconsistent o) := by
  unfold inconsistent; infer_instance

def MAP_BUF_SIZE : Nat := 100

/-- The variables of `main` used by the mapping blocks. -/
structure MapVars where
  uid_map : Ptr
  gid_map : Ptr
  map_buf : CString
  deriving DecidableEq, Repr

/-- The string a `char *` of `main` points to. -/
def deref (p : Ptr) (v : MapVars) : CString :=
  match p with
  | Ptr.null => []
  | Ptr.optarg s => s
  | Ptr.map_buf => v.map_buf

/-- Effect on `main`'s memory of `update_map` rewriting the string at `p`. -/
def store (p : Ptr) (s : CString) (v : MapVars) : MapVars :=
  match p with
  | Ptr.map_buf => { v with map_buf := s }
  | _ => v

/-- The path `"/proc/%ld/uid_map"` built at line 243. -/
def uid_map_path (child_pid : Int) : CString :=
  snprintf PATH_MAX ("/proc/".toList ++ fmt_ld child_pid ++ "/uid_map".toList)

/-- The path `"/proc/%ld/gid_map"` built at line 252. -/
def gid_map_path (child_pid : Int) : CString :=
  snprintf PATH_MAX ("/proc/".toList ++ fmt_ld child_pid ++ "/gid_map".toList)

/-- Lines 242-249 of `main`. -/
def uid_block (env : Env) (map_zero : Bool) (child_pid : Int) (v : MapVars) : Run MapVars :=
  if v.uid_map ≠ Ptr.null ∨ map_zero = true then do
    let v1 : MapVars :=
      if map_zero = true then
        { v with map_buf := snprintf MAP_BUF_SIZE ("0 ".toList ++ fmt_ld (env.getuid : Int) ++ " 1".toList),
                 uid_map := Ptr.map_buf }
      else v
    let s ← update_map env (deref v1.uid_map v1) (uid_map_path child_pid)
    pure (store v1.uid_map s v1)
  else pure v

/-- Lines 250-258 of `main`. -/
def gid_block (env : Env) (map_zero : Bool) (child_pid : Int) (v : MapVars) : Run MapVars :=
  if v.gid_map ≠ Ptr.null ∨ map_zero = true then do
    proc_setgroups_write env child_pid "deny".toList
    let v1 : MapVars :=
      if map_zero = true then
        { v with map_buf := snprintf MAP_BUF_SIZE ("0 ".toList ++ fmt_ld (env.getgid : Int) ++ " 1".toList),
                 gid_map := Ptr.map_buf }
      else v
    let s ← update_map env (deref v1.gid_map v1) (gid_map_path child_pid)
    pure (store v1.gid_map s v1)
  else pure v

/-- Lines 229-270 of `main`: everything after the option checks. -/
def launch (argv0 : CString) (o : Opts) (env : Env) : Run Unit := do
  emit Event.pipe
  if env.pipe_ret = -1 then bail "pipe"
  emit (Event.clone (o.flags ||| SIGCHLD))
  if env.clone_ret = -1 then bail "clone"
  if o.verbose = true then
    emit (Event.stdout "%s: PID of child created by clone() is %ld\n" [argv0, fmt_ld env.clone_ret])
  let v1 ← uid_block env o.map_zero env.clone_ret ⟨o.uid_map, o.gid_map, []⟩
  let _ ← gid_block env o.map_zero env.clone_ret v1
  emit Event.close_pipe_wr
  emit (Event.waitpid env.clone_ret)
  if env.waitpid_ret = -1 then bail "waitpid"
  if o.verbose = true then
    emit (Event.stdout "%s: terminating\n" [argv0])
  exit EXIT_FAILURE

/-- `main(argc, argv)`: `argv0` is `argv[0]`, `opts` the values returned by
`getopt` in order, `cmd` the words `argv[optind..argc-1]` (so
`optind >= argc` is `cmd = []`). -/
def main (argv0 : CString) (opts : List GetoptRet) (cmd : List CString) (env : Env) : Run Unit := do
  let o ← getopt_loop argv0 opts Opts.init
  if inconsistent o then usage argv0
  if cmd = [] then usage argv0
  launch argv0 o env

/-- The event printed under `-v` after `clone` (line 239), if any. -/
def verbose_created (argv0 : CString) (o : Opts) (env : Env) : List Event :=
  if o.verbose = true then
    [Event.stdout "%s: PID of child created by clone() is %ld\n" [argv0, fmt_ld env.clone_ret]]
  else []

/-- The events of lines 264-270, after the `waitpid` call was issued. -/
def after_waitpid (argv0 : CString) (o : Opts) (env : Env) : List Event :=
  if env.waitpid_ret = -1 then [Event.perror "waitpid", Event.exit EXIT_FAILURE]
  else (if o.verbose = true then [Event.stdout "%s: terminating\n" [argv0]] else [])
    ++ [Event.exit EXIT_FAILURE]

/-- The record `"0 <id> 1"` that `-z` stands for according to the usage text
(`-M '0 <uid> 1' -G '0 <gid> 1'`). -/
def root_record (id : Nat) : CString := "0 ".toList ++ fmt_ld (id : Int) ++ " 1".toList

/-- The bytes written for a mapping string: each comma replaced by a newline,
every other byte as it is. -/
def with_newlines (mapping : CString) : CString :=
  mapping.map (fun c => if c = ',' then '\n' else c)

/-- The UID mapping requested by the options: with `-z` the record
`"0 <uid> 1"` as `snprintf` leaves it in `map_buf` (line 245), otherwise the
argument of `-M`. -/
def uid_mapping (env : Env) (o : Opts) : CString :=
  if o.map_zero = true then
    snprintf MAP_BUF_SIZE ("0 ".toList ++ fmt_ld (env.getuid : Int) ++ " 1".toList)
  else
    match o.uid_map with
    | Ptr.optarg s => s
    | _ => []

/-- The GID mapping requested by the options: with `-z` the record
`"0 <gid> 1"` as `snprintf` leaves it in `map_buf` (line 254), otherwise the
argument of `-G`. -/
def gid_mapping (env : Env) (o : Opts) : CString :=
  if o.map_zero = true then
    snprintf MAP_BUF_SIZE ("0 ".toList ++ fmt_ld (env.getgid : Int) ++ " 1".toList)
  else
    match o.gid_map with
    | Ptr.optarg s => s
    | _ => []

end userns_child_exec

/-! ## `ns_child_exec.c` -/

namespace ns_child_exec

/-- `usage(name)`: the help text goes to stderr (its fixed lines after the
first are folded into one event), then `exit(EXIT_FAILURE)`. -/
def usage {α : Type} (name : CString) : Run α := do
  emit (Event.stderr "Usage: %s [options] cmd [arg...]\n" [name])
  exit EXIT_FAILURE

/-- `childFunc(arg)`: `execvp(argv[0], &argv[0]); bail("execvp");`. -/
def childFunc (argv : List CString) (execvp_fails : Bool) : Run Int := do
  emit (Event.execvp (argv.headD []) argv)
  if execvp_fails then bail "execvp" else userns_child_exec.replaced

/-- The variables of `main` set by the option loop. -/
structure Opts where
  flags : Nat
  verbose : Bool
  deriving DecidableEq, Repr

/-- One pass through the `switch (opt)` of `main`, lines 60-69.  The case
`'v'` has no `break`: after `verbose = 1` control falls into `default`. -/
def switch_opt (name : CString) (o : Opts) (r : GetoptRet) : Run Opts :=
  if r.opt = 'i' then pure { o with flags := o.flags ||| CLONE_NEWIPC }
  else if r.opt = 'm' then pure { o with flags := o.flags ||| CLONE_NEWNS }
  else if r.opt = 'n' then pure { o with flags := o.flags ||| CLONE_NEWNET }
  else if r.opt = 'p' then pure { o with flags := o.flags ||| CLONE_NEWPID }
  else if r.opt = 'u' then pure { o with flags := o.flags ||| CLONE_NEWUTS }
  else if r.opt = 'U' then pure { o with flags := o.flags ||| CLONE_NEWUSER }
  else if r.opt = 'v' then do
    let o1 : Opts := { o with verbose := true }
    let _ ← (usage name : Run Unit)
    pure o1
  else usage name

/-- The `while ((opt = getopt(...)) != -1)` loop over the values `getopt`
returns. -/
def getopt_loop (name : CString) : List GetoptRet → Opts → Run Opts
  | [], o => pure o
  | r :: rest, o => do
      let o1 ← switch_opt name o r
      getopt_loop name rest o1

/-- `main(argc, argv)`, with the same inputs as `userns_child_exec.main`. -/
def main (argv0 : CString) (opts : List GetoptRet) (cmd : List CString) (env : Env) : Run Unit := do
  let o ← getopt_loop argv0 opts ⟨0, false⟩
  if cmd = [] then usage argv0
  emit (Event.clone (o.flags ||| SIGCHLD))
  if env.clone_ret = -1 then bail "clone"
  if o.verbose = true then
    emit (Event.stdout "%s: PId of child created by clone() is %ld\n" [argv0, fmt_ld env.clone_ret])
  emit (Event.waitpid env.clone_ret)
  if env.waitpid_ret = -1 then bail "waitpid"
  if o.verbose = true then
    emit (Event.stdout "%s: terminating\n" [argv0])
  exit EXIT_FAILURE

end ns_child_exec

/-! ## `multi_pidns.c` -/

/-- Whether the event is a `clone` with an integer argument. -/
def Event.is_clone_with : Event → Bool
  | Event.clone_with _ _ => true
  | _ => false

namespace multi_pidns

/-- Results of the system calls of `multi_pidns`, each as a function of the
arguments of the call. -/
structure Env where
  /-- Return value of `mount("proc", target, "proc", 0, NULL)`. -/
  mount_ret : CString → Int
  /-- Return value of `clone(childFunc, ..., (void *) level)`: the PID of the
  child, or -1. -/
  clone_ret : Int → Int
  /-- Return value of `waitpid(pid, NULL, 0)`. -/
  waitpid_ret : Int → Int
  /-- Whether `execlp("sleep", ...)` fails (it returns only then). -/
  execlp_fails : Bool

/-- The string left in `mount_point` by
`snprintf(mount_point, PATH_MAX, "/proc%c", (char) ('0' + level))`: `%c` writes
the one byte `('0' + level) mod 256`, and a NUL byte ends the string.  The
counter comes from `atoi`, so `'0' + level` does not overflow a `long`. -/
def mount_point (level : Int) : CString :=
  c_str (snprintf PATH_MAX
    ("/proc".toList ++ [Char.ofNat ((('0'.toNat : Int) + level) % 256).toNat]))

/-- `childFunc(arg)` as run by one process; `first_call` is the value of the
static variable when the call starts. -/
def childFunc (env : Env) (first_call : Bool) (arg : Int) : Run Int := do
  let level := arg
  if first_call = false then
    emit (Event.mkdir (mount_point level) 0o555)
    emit (Event.mount "proc".toList (mount_point level) "proc".toList)
    if env.mount_ret (mount_point level) = -1 then bail "mount"
    emit (Event.stdout "Mounting procfs at %s\n" [mount_point level])
  if level > 0 then
    let level := level - 1
    emit (Event.clone_with (CLONE_NEWPID ||| SIGCHLD) level)
    if env.clone_ret level = -1 then bail "clone"
    emit (Event.waitpid (env.clone_ret level))
    if env.waitpid_ret (env.clone_ret level) = -1 then bail "waitpid"
  else
    emit (Event.stdout "Final child sleeping\n" [])
    emit (Event.execlp "sleep".toList ["sleep".toList, "1000".toList])
    if env.execlp_fails = true then bail "execlp" else userns_child_exec.replaced
  pure 0

/-- `main(argc, argv)`: `atoi_argv1` is the value of `atoi(argv[1])` when
`argc > 1`.  The call of `childFunc` by `main` is the first one, with the
static `first_call` still 1. -/
def main (env : Env) (atoi_argv1 : Option Int) : Run Unit := do
  let levels : Int := match atoi_argv1 with
    | some n => n
    | none => 5
  let _ ← childFunc env true levels
  exit EXIT_SUCCESS

/-- A process created by `clone(childFunc, child_stack + STACK_SIZE, ...,
(void *) level)`.  It runs `childFunc(level)` on a copy of its parent's memory,
where the static `first_call` is 0 already (line 52 comes before the `clone` of
line 60), and its stack is `child_stack` (line 30), with the return address of
`childFunc` at the top.

When this `childFunc` calls `clone` itself it passes the same
`child_stack + STACK_SIZE` (line 60): before the system call the `clone` wrapper
of the C library stores the start function and its argument at the top of that
stack, in the calling process, over the return address of the running
`childFunc`.  The `return 0` of line 72 then jumps to the stored argument, the
small counter value, which is no mapped address, and the process is killed by
`SIGSEGV`.  Only a `childFunc` that made no `clone` would return to the wrapper
and terminate the process with the value returned; `bail` and `execlp` do not
return through the stack and are not affected. -/
def cloned_child (env : Env) (level : Int) : Run Unit := do
  let r ← childFunc env false level
  if (childFunc env false level).trace.any Event.is_clone_with = true then killed SIGSEGV
  else exit r.toNat

/-- The argument of the first `clone` of a trace. -/
def clone_arg : List Event → Option Int
  | [] => none
  | Event.clone_with _ arg :: _ => some arg
  | _ :: t => clone_arg t

/-- The traces of the processes below the one with trace `parent`, nearest
first: if `parent` made a `clone` that succeeded, the cloned child and, in
turn, what is below it.  `fuel` bounds the depth followed. -/
def descendants (env : Env) : Nat → List Event → List (List Event)
  | 0, _ => []
  | fuel + 1, parent =>
      match clone_arg parent with
      | none => []
      | some level =>
          if env.clone_ret level = -1 then []
          else (cloned_child env level).trace
            :: descendants env fuel (cloned_child env level).trace

/-- The traces of all processes of one run of `multi_pidns`, outermost first,
followed to depth `fuel`. -/
def processes (env : Env) (atoi_argv1 : Option Int) (fuel : Nat) : List (List Event) :=
  (main env atoi_argv1).trace :: descendants env fuel (main env atoi_argv1).trace

end multi_pidns

/-! ## Observations on traces -/

/-- Whether the event is a `write` to a file. -/
def Event.is_write : Event → Bool
  | Event.write _ _ _ => true
  | _ => false

/-- Whether the event is a `clone`. -/
def Event.is_clone : Event → Bool
  | Event.clone _ => true
  | _ => false

/-- Whether the event is an `execvp`. -/
def Event.is_execvp : Event → Bool
  | Event.execvp _ _ => true
  | _ => false

/-- Whether the event is `pipe` or `clone`: the creation of the pipe or of a
child process. -/
def Event.creates : Event → Bool
  | Event.pipe => true
  | Event.clone _ => true
  | _ => false

/-- Whether the event is one of the two synchronisation steps of the parent:
closing its write end of the pipe, or `waitpid`. -/
def Event.is_sync : Event → Bool
  | Event.close_pipe_wr => true
  | Event.waitpid _ => true
  | _ => false

/-- The file writes of a trace, in order: path and bytes handed to `write`. -/
def file_writes : List Event → List (CString × CString)
  | [] => []
  | Event.write path buf _ :: t => (path, buf) :: file_writes t
  | _ :: t => file_writes t

/-- The flag word of the first `clone` of a trace. -/
def clone_flags : List Event → Option Nat
  | [] => none
  | Event.clone flags :: _ => some flags
  | _ :: t => clone_flags t

/-- The status with which the process of the trace exits. -/
def exit_status : List Event → Option Nat
  | [] => none
  | Event.exit status :: _ => some status
  | _ :: t => exit_status t

/-- Whether option character `c` occurs among the values `getopt` returned. -/
def given (c : Char) (opts : List GetoptRet) : Bool := opts.any (fun r => r.opt = c)

/-- The namespace flags requested by an option sequence: one flag for each of
`-i -m -n -p -u -U` that occurs in it. -/
def requested_flags (opts : List GetoptRet) : Nat :=
  (if given 'i' opts then CLONE_NEWIPC else 0) ||| (if given 'm' opts then CLONE_NEWNS else 0)
    ||| (if given 'n' opts then CLONE_NEWNET else 0) ||| (if given 'p' opts then CLONE_NEWPID else 0)
    ||| (if given 'u' opts then CLONE_NEWUTS else 0) ||| (if given 'U' opts then CLONE_NEWUSER else 0)

/-- Whether every option of the sequence is one of `-i -m -n -p -u -U`. -/
def namespace_options (opts : List GetoptRet) : Bool :=
  opts.all (fun r => r.opt = 'i' || r.opt = 'm' || r.opt = 'n' || r.opt = 'p' || r.opt = 'u' || r.opt = 'U')

/-- No step of a launch fails: every system call of the parent succeeds, and
every `write` transfers all the bytes it was given. -/
structure Env.no_step_fails (env : Env) : Prop where
  pipe_ok : env.pipe_ret ≠ -1
  clone_ok : env.clone_ret ≠ -1
  open_ok : ∀ path, env.open_ret path ≠ -1
  write_ok : ∀ path buf count, env.write_ret path buf count = (count : Int)
  waitpid_ok : env.waitpid_ret ≠ -1

/-! ## Parent and child together -/

/-- Whether the event gives up the process's write end of the pipe: the
explicit `close(args.pipe_fd[1])`, or process termination, at which the kernel
closes every descriptor the process still holds (`_exit(2)`). -/
def Event.releases_pipe : Event → Bool
  | Event.close_pipe_wr => true
  | Event.exit _ => true
  | _ => false

/-- Whether the parent gives up its write end of the pipe at some point of its
trace that it can reach without the child having terminated, that is, before
any `waitpid`. -/
def released_before_wait : List Event → Bool
  | [] => false
  | Event.waitpid _ :: _ => false
  | e :: t => e.releases_pipe || released_before_wait t

/-- The kernel's answer to the child's one-byte `read` on the pipe (`pipe(7)`).
Nothing is ever written to the pipe, and the child closes its own copy of the
write end before it reads; so the read returns 0 (end of file) once the parent
has given up its write end, whether by `close` or by terminating, and blocks
for ever (`none`) if the parent never does.  `read_error` makes the call fail
with -1 instead. -/
def pipe_read (parent : List Event) (read_error : Bool) : Option Int :=
  if read_error then some (-1)
  else if released_before_wait parent then some 0
  else none

/-- The two traces of one launch; `child` is `none` when no child exists. -/
structure LaunchRun where
  parent : List Event
  child : Option (List Event)
  deriving DecidableEq, Repr

/-- One launch by `userns_child_exec`: the parent runs `main`; if its `clone`
succeeded, the child runs `childFunc` on its copy of `args`, its `read`
answered by `pipe_read` (a child blocked for ever has issued only the `close`
and the `read`). -/
def userns_child_exec.run (argv0 : CString) (opts : List GetoptRet) (cmd : List CString)
    (env : Env) (read_error execvp_fails : Bool) : LaunchRun :=
  let parent := (userns_child_exec.main argv0 opts cmd env).trace
  { parent := parent,
    child :=
      if parent.any Event.is_clone ∧ env.clone_ret ≠ -1 then
        match pipe_read parent read_error with
        | some r => some (userns_child_exec.childFunc ⟨cmd⟩ ⟨r, execvp_fails⟩).trace
        | none => some [Event.close_pipe_wr, Event.read_pipe]
      else none }

/-! ## Sample environments -/

/-- Every call succeeds; the caller is user 1000, group 100; the child gets PID 4242. -/
def env_ok : Env where
  pipe_ret := 0
  clone_ret := 4242
  getuid := 1000
  getgid := 100
  open_ret := fun _ => 3
  open_errno := fun _ => 0
  write_ret := fun _ _ count => count
  waitpid_ret := 4242
  child_status := 0

/-- As `env_ok`, but the kernel rejects the write to `/proc/4242/setgroups`. -/
def env_setgroups_write_fails : Env :=
  { env_ok with
    write_ret := fun path _ count => if path = "/proc/4242/setgroups".toList then -1 else count }

/-- As `env_ok`, but `/proc/4242/uid_map` cannot be opened. -/
def env_uid_map_open_fails : Env :=
  { env_ok with
    open_ret := fun path => if path = "/proc/4242/uid_map".toList then -1 else 3,
    open_errno := fun path => if path = "/proc/4242/uid_map".toList then 13 else 0 }

/-- The `argv[0]` used in the sample runs. -/
def prog : CString := "userns_child_exec".toList

/-- The command `sh` used in the sample runs. -/
def sh : List CString := ["sh".toList]

/-- As `env_ok`, but the write to `/proc/4242/uid_map` transfers 3 bytes only. -/
def env_short_write : Env :=
  { env_ok with
    write_ret := fun path _ count => if path = "/proc/4242/uid_map".toList then 3 else count }

/-- The `argv[0]` of the sample runs of `ns_child_exec`. -/
def ns_prog : CString := "ns_child_exec".toList

/-- Every call of `multi_pidns` succeeds; the child cloned with a counter
`level` that is not negative gets PID `100 + level`. -/
def pidns_env_ok : multi_pidns.Env where
  mount_ret := fun _ => 0
  clone_ret := fun level => 100 + (level.toNat : Int)
  waitpid_ret := fun pid => (pid.toNat : Int)
  execlp_fails := false

/-- The option sequence `-p -U -i -p`: namespace options, one of them twice. -/
def opts_pUip : List GetoptRet := [⟨'p', []⟩, ⟨'U', []⟩, ⟨'i', []⟩, ⟨'p', []⟩]

/-! # Theorems -/

/-! ## The `Run` monad -/

@[simp] theorem Run.pure_eq {α : Type} (a : α) : (pure a : Run α) = ⟨[], some a⟩ := rfl

@[simp] theorem Run.bind_eq {α β : Type} (x : Run α) (f : α → Run β) :
    (x >>= f) = Run.bind x f := rfl

@[simp] theorem Run.bind_some {α β : Type} (t : List Event) (a : α) (f : α → Run β) :
    Run.bind ⟨t, some a⟩ f = ⟨t ++ (f a).trace, (f a).ret⟩ := rfl

@[simp] theorem Run.bind_none {α β : Type} (t : List Event) (f : α → Run β) :
    Run.bind ⟨t, none⟩ f = ⟨t, none⟩ := rfl

theorem Run.bind_of_ret_some {α β : Type} (x : Run α) (a : α) (f : α → Run β)
    (h : x.ret = some a) : Run.bind x f = ⟨x.trace ++ (f a).trace, (f a).ret⟩ := by
  unfold Run.bind; rw [h]

theorem Run.bind_of_ret_none {α β : Type} (x : Run α) (f : α → Run β)
    (h : x.ret = none) : Run.bind x f = ⟨x.trace, none⟩ := by
  unfold Run.bind; rw [h]

/-! ## C1: mapping writes, then the close of the pipe, then `waitpid` -/

theorem ite_cases {α : Type} (P : α → Prop) {p : Prop} [Decidable p] {a b : α}
    (ha : P a) (hb : P b) : P (if p then a else b) := by
  split <;> assumption

namespace userns_child_exec

theorem usage_eq {α : Type} (name : CString) :
    (usage name : Run α)
      = ⟨[Event.stderr "Usage: %s [options] cmd [arg...]\n" [name], Event.exit EXIT_FAILURE], none⟩ := rfl

theorem switch_opt_cases (name : CString) (o : Opts) (r : GetoptRet) :
    switch_opt name o r = usage name ∨ ∃ o1, switch_opt name o r = ⟨[], some o1⟩ := by
  unfold switch_opt
  repeat' apply ite_cases (fun x => x = usage name ∨ ∃ o1, x = ⟨[], some o1⟩)
  all_goals first
    | exact Or.inl rfl
    | exact Or.inr ⟨_, rfl⟩

theorem getopt_loop_cases (name : CString) (opts : List GetoptRet) (o : Opts) :
    getopt_loop name opts o = usage name ∨ ∃ o1, getopt_loop name opts o = ⟨[], some o1⟩ := by
  induction opts generalizing o with
  | nil => right; exact ⟨o, rfl⟩
  | cons r rest ih =>
    rcases switch_opt_cases name o r with h | ⟨o1, h⟩
    · left; simp [getopt_loop, h, usage_eq]
    · rcases ih o1 with h1 | ⟨o2, h1⟩
      · left; simp [getopt_loop, h, h1, usage_eq]
      · right; exact ⟨o2, by simp [getopt_loop, h, h1]⟩

theorem getopt_loop_of_ret (name : CString) (opts : List GetoptRet) (o o1 : Opts)
    (h : (getopt_loop name opts o).ret = some o1) : getopt_loop name opts o = ⟨[], some o1⟩ := by
  rcases getopt_loop_cases name opts o with h1 | ⟨o2, h1⟩
  · rw [h1, usage_eq] at h; simp at h
  · rw [h1] at h ⊢; simp at h; rw [h]

/-- With a parse result that passes both checks, `main` is `launch`. -/
theorem main_of_valid (argv0 : CString) (opts : List GetoptRet) (cmd : List CString) (env : Env)
    (o : Opts) (hparse : (getopt_loop argv0 opts Opts.init).ret = some o)
    (hcons : ¬ inconsistent o) (hcmd : cmd ≠ []) :
    main argv0 opts cmd env = launch argv0 o env := by
  have h := getopt_loop_of_ret argv0 opts Opts.init o hparse
  simp [main, h, hcons, hcmd]

theorem update_map_ok (env : Env) (mapping map_file : CString)
    (hopen : env.open_ret map_file ≠ -1)
    (hwrite : env.write_ret map_file (replace_commas mapping.length 0 mapping) mapping.length
      = (mapping.length : Int)) :
    update_map env mapping map_file =
      ⟨[Event.open_rdwr map_file,
        Event.write map_file (replace_commas mapping.length 0 mapping) mapping.length,
        Event.close map_file], some (replace_commas mapping.length 0 mapping)⟩ := by
  simp [update_map, emit, hopen, hwrite]

theorem update_map_no_sync (env : Env) (mapping map_file : CString) :
    ∀ e ∈ (update_map env mapping map_file).trace, e.is_sync = false := by
  by_cases h1 : env.open_ret map_file = -1 <;>
  by_cases h2 : env.write_ret map_file (replace_commas mapping.length 0 mapping) mapping.length
      = (mapping.length : Int) <;>
  simp [update_map, emit, exit, h1, h2, Event.is_sync]

theorem proc_setgroups_write_ret (env : Env) (child_pid : Int) (str : CString) :
    (proc_setgroups_write env child_pid str).ret = some () := by
  by_cases h1 : env.open_ret (setgroups_path child_pid) = -1 <;>
  by_cases h2 : env.open_errno (setgroups_path child_pid) = ENOENT <;>
  by_cases h3 : env.write_ret (setgroups_path child_pid) str str.length = -1 <;>
  simp [proc_setgroups_write, emit, h1, h2, h3]

theorem proc_setgroups_write_no_sync (env : Env) (child_pid : Int) (str : CString) :
    ∀ e ∈ (proc_setgroups_write env child_pid str).trace, e.is_sync = false := by
  by_cases h1 : env.open_ret (setgroups_path child_pid) = -1 <;>
  by_cases h2 : env.open_errno (setgroups_path child_pid) = ENOENT <;>
  by_cases h3 : env.write_ret (setgroups_path child_pid) str str.length = -1 <;>
  simp [proc_setgroups_write, emit, h1, h2, h3, Event.is_sync]

theorem uid_block_no_sync (env : Env) (map_zero : Bool) (child_pid : Int) (v : MapVars) :
    ∀ e ∈ (uid_block env map_zero child_pid v).trace, e.is_sync = false := by
  unfold uid_block
  split
  · intro e he
    simp only [Run.bind_eq, Run.pure_eq] at he
    unfold Run.bind at he
    split at he
    · exact update_map_no_sync _ _ _ e he
    · simp at he; exact update_map_no_sync _ _ _ e he
  · simp

theorem gid_block_no_sync (env : Env) (map_zero : Bool) (child_pid : Int) (v : MapVars) :
    ∀ e ∈ (gid_block env map_zero child_pid v).trace, e.is_sync = false := by
  unfold gid_block
  split
  · intro e he
    simp only [Run.bind_eq, Run.pure_eq,
      Run.bind_of_ret_some _ _ _ (proc_setgroups_write_ret env child_pid _)] at he
    simp only [List.mem_append] at he
    rcases he with he | he
    · exact proc_setgroups_write_no_sync _ _ _ e he
    · unfold Run.bind at he
      split at he
      · exact update_map_no_sync _ _ _ e he
      · simp at he; exact update_map_no_sync _ _ _ e he
  · simp

theorem uid_block_ret (env : Env) (map_zero : Bool) (child_pid : Int) (v : MapVars)
    (hopen : ∀ path, env.open_ret path ≠ -1)
    (hwrite : ∀ path buf count, env.write_ret path buf count = (count : Int)) :
    ∃ v1, (uid_block env map_zero child_pid v).ret = some v1 := by
  unfold uid_block
  split
  · simp [update_map_ok env _ _ (hopen _) (hwrite _ _ _)]
  · simp

theorem gid_block_ret (env : Env) (map_zero : Bool) (child_pid : Int) (v : MapVars)
    (hopen : ∀ path, env.open_ret path ≠ -1)
    (hwrite : ∀ path buf count, env.write_ret path buf count = (count : Int)) :
    ∃ v1, (gid_block env map_zero child_pid v).ret = some v1 := by
  unfold gid_block
  split
  · simp [update_map_ok env _ _ (hopen _) (hwrite _ _ _),
      Run.bind_of_ret_some _ _ _ (proc_setgroups_write_ret env child_pid _)]
  · simp

theorem launch_trace (argv0 : CString) (o : Opts) (env : Env) (v1 v2 : MapVars)
    (hpipe : env.pipe_ret ≠ -1) (hclone : env.clone_ret ≠ -1)
    (hu : (uid_block env o.map_zero env.clone_ret ⟨o.uid_map, o.gid_map, []⟩).ret = some v1)
    (hg : (gid_block env o.map_zero env.clone_ret v1).ret = some v2) :
    (launch argv0 o env).trace =
      [Event.pipe, Event.clone (o.flags ||| SIGCHLD)] ++ verbose_created argv0 o env
        ++ (uid_block env o.map_zero env.clone_ret ⟨o.uid_map, o.gid_map, []⟩).trace
        ++ (gid_block env o.map_zero env.clone_ret v1).trace
        ++ [Event.close_pipe_wr, Event.waitpid env.clone_ret] ++ after_waitpid argv0 o env := by
  simp only [launch, Run.bind_eq, emit, Run.bind_some, hpipe, hclone, if_false, Run.pure_eq,
    Run.bind_of_ret_some _ _ _ hu, Run.bind_of_ret_some _ _ _ hg, verbose_created, after_waitpid]
  by_cases hv : o.verbose = true <;> by_cases hw : env.waitpid_ret = -1 <;>
    simp [hv, hw, bail, exit, emit]

end userns_child_exec

/-- C1: in every run of `userns_child_exec` whose options pass validation and in
which no step fails, the parent's trace is `pre`, then the close of the pipe's
write end immediately followed by `waitpid`, then `post`; neither of these two
steps occurs in `pre`, and no write to a file occurs in `post`.  So every write
to `uid_map`, `setgroups` or `gid_map` precedes the close, and the close
precedes `waitpid`, whether or not a mapping was requested. -/
theorem C1_writes_before_close_before_waitpid (argv0 : CString) (opts : List GetoptRet)
    (cmd : List CString) (env : Env) (o : userns_child_exec.Opts)
    (hparse : (userns_child_exec.getopt_loop argv0 opts userns_child_exec.Opts.init).ret = some o)
    (hcons : ¬ userns_child_exec.inconsistent o) (hcmd : cmd ≠ [])
    (hok : env.no_step_fails) :
    ∃ pre post,
      (userns_child_exec.main argv0 opts cmd env).trace
          = pre ++ [Event.close_pipe_wr, Event.waitpid env.clone_ret] ++ post
        ∧ (∀ e ∈ pre, e.is_sync = false)
        ∧ (∀ e ∈ post, e.is_write = false) := by
  obtain ⟨v1, hu⟩ := userns_child_exec.uid_block_ret env o.map_zero env.clone_ret
    ⟨o.uid_map, o.gid_map, []⟩ hok.open_ok hok.write_ok
  obtain ⟨v2, hg⟩ := userns_child_exec.gid_block_ret env o.map_zero env.clone_ret v1
    hok.open_ok hok.write_ok
  rw [userns_child_exec.main_of_valid argv0 opts cmd env o hparse hcons hcmd,
    userns_child_exec.launch_trace argv0 o env v1 v2 hok.pipe_ok hok.clone_ok hu hg]
  refine ⟨_, _, rfl, ?_, ?_⟩
  · intro e he
    simp only [List.mem_append, List.mem_cons, List.mem_singleton, List.not_mem_nil, or_false] at he
    rcases he with ((h | h) | h) | h
    · rcases h with h | h <;> simp [h, Event.is_sync]
    · unfold userns_child_exec.verbose_created at h
      split at h <;> simp at h
      simp [h, Event.is_sync]
    · exact userns_child_exec.uid_block_no_sync _ _ _ _ e h
    · exact userns_child_exec.gid_block_no_sync _ _ _ _ e h
  · intro e he
    unfold userns_child_exec.after_waitpid at he
    simp [hok.waitpid_ok] at he
    rcases he with h | h
    · simp [h.2, Event.is_write]
    · simp [h, Event.is_write]

/-- C1 at a sample run: `-U -z sh`, every call succeeding. -/
theorem C1_witness :
    ∃ pre post,
      (userns_child_exec.main prog [⟨'U', []⟩, ⟨'z', []⟩] sh env_ok).trace
          = pre ++ [Event.close_pipe_wr, Event.waitpid env_ok.clone_ret] ++ post
        ∧ (∀ e ∈ pre, e.is_sync = false)
        ∧ (∀ e ∈ post, e.is_write = false) :=
  C1_writes_before_close_before_waitpid prog [⟨'U', []⟩, ⟨'z', []⟩] sh env_ok
    ⟨CLONE_NEWUSER, false, true, Ptr.null, Ptr.null⟩ (by decide) (by decide) (by decide)
    ⟨by decide, by decide, fun _ => by simp [env_ok], fun _ _ _ => rfl, by decide⟩

/-! ## C2: the child and the result of its read -/

/-- C2: `childFunc` of `userns_child_exec` calls `execvp` on the target program
if and only if its one-byte read from the pipe returned 0; for every other
result of the read (a byte arrived, or the read failed) its trace is the close
of its write end, the read, the failure message and `exit(EXIT_FAILURE)`, with
no `execvp`. -/
theorem C2_child_execs_iff_read_returns_zero (args : userns_child_exec.child_args)
    (cenv : userns_child_exec.ChildEnv) :
    (Event.execvp (args.argv.headD []) args.argv ∈ (userns_child_exec.childFunc args cenv).trace
        ↔ cenv.read_ret = 0)
      ∧ ((userns_child_exec.childFunc args cenv).trace.any Event.is_execvp = true
        ↔ cenv.read_ret = 0)
      ∧ (userns_child_exec.childFunc args cenv).trace
        = [Event.close_pipe_wr, Event.read_pipe] ++
          (if cenv.read_ret = 0 then
            Event.execvp (args.argv.headD []) args.argv ::
              (if cenv.execvp_fails = true then [Event.perror "execvp", Event.exit EXIT_FAILURE]
               else [])
           else
            [Event.stderr "Failure in child: read from pipe returned !=0\n" [],
             Event.exit EXIT_FAILURE]) := by
  by_cases h : cenv.read_ret = 0 <;> by_cases hx : cenv.execvp_fails = true <;>
    simp [userns_child_exec.childFunc, userns_child_exec.replaced, emit, exit, bail, h, hx,
      Event.is_execvp]

/-! ## C3: a mapping that cannot be applied -/

/-- C3, the run that breaks it: `-U -M "0 1000 1" sh` where `/proc/4242/uid_map`
cannot be opened.  The parent reports the failed open and exits inside
`update_map` without having closed the pipe; its termination closes the write
end all the same, the child's read returns 0, and the child calls `execvp` on
the target program although the requested mapping was never applied. -/
theorem C3_child_execs_after_failed_mapping :
    userns_child_exec.run prog [⟨'U', []⟩, ⟨'M', "0 1000 1".toList⟩] sh
        env_uid_map_open_fails false false
      = { parent :=
            [Event.pipe, Event.clone (CLONE_NEWUSER ||| SIGCHLD),
             Event.open_rdwr "/proc/4242/uid_map".toList,
             Event.stderr "ERROR: open %s: %s\n" ["/proc/4242/uid_map".toList],
             Event.exit EXIT_FAILURE],
          child := some [Event.close_pipe_wr, Event.read_pipe,
                         Event.execvp "sh".toList ["sh".toList]] } := by
  decide

/-- The same model on a run without failure, `-U -z sh`: the child is released
by the parent's `close` and calls `execvp`. -/
theorem run_released_by_close :
    (userns_child_exec.run prog [⟨'U', []⟩, ⟨'z', []⟩] sh env_ok false false).child
      = some [Event.close_pipe_wr, Event.read_pipe, Event.execvp "sh".toList ["sh".toList]] := by
  decide

/-! ## The loop of `update_map` -/

namespace userns_child_exec

/-- What the loop does to the byte at index `i`. -/
theorem replace_commas_getElem? (n j : Nat) (m : CString) (i : Nat) :
    (replace_commas n j m)[i]? =
      if j ≤ i ∧ i < j + n then m[i]?.map (fun c => if c = ',' then '\n' else c) else m[i]? := by
  induction n generalizing j m with
  | zero =>
    have h : ¬ (j ≤ i ∧ i < j + 0) := by omega
    rw [replace_commas, if_neg h]
  | succ n ih =>
    rw [replace_commas, ih]
    by_cases hij : i = j
    · subst hij
      have h1 : ¬ (i + 1 ≤ i ∧ i < i + 1 + n) := by omega
      have h2 : (i ≤ i ∧ i < i + (n + 1)) := by omega
      rw [if_neg h1, if_pos h2]
      split
      · rename_i hc
        have hlt : i < m.length := by
          by_contra hge
          rw [List.getElem?_eq_none (by omega)] at hc
          simp at hc
        simp [hc, List.getElem?_set_self hlt]
      · rename_i hc
        cases hm : m[i]? with
        | none => rfl
        | some c =>
          have : c ≠ ',' := by intro h; apply hc; rw [hm, h]
          simp [this]
    · have hm : (if m[j]? = some ',' then m.set j '\n' else m)[i]? = m[i]? := by
        split
        · rw [List.getElem?_set_ne (Ne.symm hij)]
        · rfl
      rw [hm]
      by_cases hr : j ≤ i ∧ i < j + (n + 1)
      · have hr1 : j + 1 ≤ i ∧ i < j + 1 + n := by omega
        rw [if_pos hr, if_pos hr1]
      · have hr1 : ¬ (j + 1 ≤ i ∧ i < j + 1 + n) := by omega
        rw [if_neg hr, if_neg hr1]

/-- The loop of `update_map` replaces every comma by a newline and leaves
every other byte as it is. -/
theorem replace_commas_eq_map (m : CString) :
    replace_commas m.length 0 m = m.map (fun c => if c = ',' then '\n' else c) := by
  apply List.ext_getElem?
  intro i
  rw [replace_commas_getElem?, List.getElem?_map]
  by_cases h : i < m.length
  · simp [h]
  · simp [h, List.getElem?_eq_none (Nat.le_of_not_lt h)]

end userns_child_exec

/-! ## C4: the order of the three writes -/

theorem file_writes_append (a b : List Event) :
    file_writes (a ++ b) = file_writes a ++ file_writes b := by
  induction a with
  | nil => rfl
  | cons e t ih => cases e <;> simp [file_writes, ih]

namespace userns_child_exec

theorem update_map_write_paths (env : Env) (mapping map_file : CString) :
    List.Sublist ((file_writes (update_map env mapping map_file).trace).map Prod.fst) [map_file] := by
  by_cases h1 : env.open_ret map_file = -1 <;>
  by_cases h2 : env.write_ret map_file (replace_commas mapping.length 0 mapping) mapping.length
      = (mapping.length : Int) <;>
  simp [update_map, emit, exit, h1, h2, file_writes]

theorem proc_setgroups_write_paths (env : Env) (child_pid : Int) (str : CString) :
    List.Sublist ((file_writes (proc_setgroups_write env child_pid str).trace).map Prod.fst)
      [setgroups_path child_pid] := by
  by_cases h1 : env.open_ret (setgroups_path child_pid) = -1 <;>
  by_cases h2 : env.open_errno (setgroups_path child_pid) = ENOENT <;>
  by_cases h3 : env.write_ret (setgroups_path child_pid) str str.length = -1 <;>
  simp [proc_setgroups_write, emit, h1, h2, h3, file_writes]

theorem bind_pure_trace {α β : Type} (x : Run α) (g : α → β) :
    (Run.bind x (fun a => (pure (g a) : Run β))).trace = x.trace := by
  unfold Run.bind
  split <;> simp

theorem uid_block_write_paths (env : Env) (map_zero : Bool) (child_pid : Int) (v : MapVars) :
    List.Sublist ((file_writes (uid_block env map_zero child_pid v).trace).map Prod.fst)
      [uid_map_path child_pid] := by
  unfold uid_block
  split
  · simp only [Run.bind_eq, bind_pure_trace]
    exact update_map_write_paths _ _ _
  · simp [file_writes]

theorem gid_block_write_paths (env : Env) (map_zero : Bool) (child_pid : Int) (v : MapVars) :
    List.Sublist ((file_writes (gid_block env map_zero child_pid v).trace).map Prod.fst)
      [setgroups_path child_pid, gid_map_path child_pid] := by
  unfold gid_block
  split
  · simp only [Run.bind_eq, Run.bind_of_ret_some _ _ _ (proc_setgroups_write_ret env child_pid _),
      bind_pure_trace, file_writes_append, List.map_append]
    exact List.Sublist.append (proc_setgroups_write_paths _ _ _) (update_map_write_paths _ _ _)
  · simp [file_writes]

/-- The trace of `launch` once `pipe` and `clone` succeeded, whatever happens
in the mapping steps. -/
theorem launch_trace_gen (argv0 : CString) (o : Opts) (env : Env)
    (hpipe : env.pipe_ret ≠ -1) (hclone : env.clone_ret ≠ -1) :
    (launch argv0 o env).trace =
      [Event.pipe, Event.clone (o.flags ||| SIGCHLD)] ++ verbose_created argv0 o env
        ++ (uid_block env o.map_zero env.clone_ret ⟨o.uid_map, o.gid_map, []⟩).trace
        ++ (match (uid_block env o.map_zero env.clone_ret ⟨o.uid_map, o.gid_map, []⟩).ret with
            | none => []
            | some v1 =>
              (gid_block env o.map_zero env.clone_ret v1).trace
                ++ (match (gid_block env o.map_zero env.clone_ret v1).ret with
                    | none => []
                    | some _ =>
                      [Event.close_pipe_wr, Event.waitpid env.clone_ret]
                        ++ after_waitpid argv0 o env)) := by
  simp only [launch, Run.bind_eq, emit, Run.bind_some, hpipe, hclone, if_false, Run.pure_eq,
    verbose_created, after_waitpid]
  cases hu : (uid_block env o.map_zero env.clone_ret ⟨o.uid_map, o.gid_map, []⟩).ret with
  | none =>
    by_cases hv : o.verbose = true <;> simp [hv, Run.bind_of_ret_none _ _ hu]
  | some v1 =>
    cases hg : (gid_block env o.map_zero env.clone_ret v1).ret with
    | none =>
      by_cases hv : o.verbose = true <;>
        simp [hv, hg, Run.bind_of_ret_some _ _ _ hu, Run.bind_of_ret_none _ _ hg]
    | some v2 =>
      by_cases hv : o.verbose = true <;> by_cases hw : env.waitpid_ret = -1 <;>
        simp [hv, hw, hg, bail, exit, emit, Run.bind_of_ret_some _ _ _ hu,
          Run.bind_of_ret_some _ _ _ hg]

theorem file_writes_verbose_created (argv0 : CString) (o : Opts) (env : Env) :
    file_writes (verbose_created argv0 o env) = [] := by
  unfold verbose_created; split <;> rfl

theorem file_writes_after_waitpid (argv0 : CString) (o : Opts) (env : Env) :
    file_writes (after_waitpid argv0 o env) = [] := by
  unfold after_waitpid; split
  · rfl
  · split <;> rfl

/-- In every run, the files written by `launch` are, in this order and each at
most once: `uid_map`, `setgroups`, `gid_map`. -/
theorem launch_write_paths (argv0 : CString) (o : Opts) (env : Env) :
    List.Sublist ((file_writes (launch argv0 o env).trace).map Prod.fst)
      [uid_map_path env.clone_ret, setgroups_path env.clone_ret, gid_map_path env.clone_ret] := by
  by_cases hpipe : env.pipe_ret = -1
  · simp [launch, emit, bail, exit, hpipe, file_writes]
  by_cases hclone : env.clone_ret = -1
  · simp [launch, emit, bail, exit, hpipe, hclone, file_writes]
  have h1 : file_writes [Event.pipe, Event.clone (o.flags ||| SIGCHLD)] = [] := rfl
  rw [launch_trace_gen argv0 o env hpipe hclone]
  simp only [file_writes_append, h1, file_writes_verbose_created, List.nil_append]
  have hu := uid_block_write_paths env o.map_zero env.clone_ret ⟨o.uid_map, o.gid_map, []⟩
  cases (uid_block env o.map_zero env.clone_ret ⟨o.uid_map, o.gid_map, []⟩).ret with
  | none =>
    have h2 : file_writes ([] : List Event) = [] := rfl
    simp only [h2, List.append_nil]
    exact hu.trans (List.sublist_append_left [uid_map_path env.clone_ret]
      [setgroups_path env.clone_ret, gid_map_path env.clone_ret])
  | some v1 =>
    have hg := gid_block_write_paths env o.map_zero env.clone_ret v1
    have hrest : (file_writes (match (gid_block env o.map_zero env.clone_ret v1).ret with
        | none => []
        | some _ => [Event.close_pipe_wr, Event.waitpid env.clone_ret]
            ++ after_waitpid argv0 o env)) = [] := by
      cases (gid_block env o.map_zero env.clone_ret v1).ret <;>
        simp [file_writes, file_writes_append, file_writes_after_waitpid]
    simp only [file_writes_append, hrest, List.map_append, List.append_nil]
    exact List.Sublist.append hu hg

theorem proc_setgroups_write_ok (env : Env) (child_pid : Int) (str : CString)
    (hopen : ∀ path, env.open_ret path ≠ -1)
    (hwrite : ∀ path buf count, env.write_ret path buf count = (count : Int)) :
    proc_setgroups_write env child_pid str =
      ⟨[Event.open_rdwr (setgroups_path child_pid),
        Event.write (setgroups_path child_pid) str str.length,
        Event.close (setgroups_path child_pid)], some ()⟩ := by
  have h : (str.length : Int) ≠ -1 := by omega
  simp [proc_setgroups_write, emit, hopen, hwrite, h]

theorem uid_block_ok (env : Env) (map_zero : Bool) (child_pid : Int) (v : MapVars)
    (hreq : v.uid_map ≠ Ptr.null ∨ map_zero = true)
    (hopen : ∀ path, env.open_ret path ≠ -1)
    (hwrite : ∀ path buf count, env.write_ret path buf count = (count : Int)) :
    ∃ buf count v1, uid_block env map_zero child_pid v =
      ⟨[Event.open_rdwr (uid_map_path child_pid),
        Event.write (uid_map_path child_pid) buf count,
        Event.close (uid_map_path child_pid)], some v1⟩ := by
  unfold uid_block
  rw [if_pos hreq]
  simp [update_map_ok env _ _ (hopen _) (hwrite _ _ _)]

theorem gid_block_ok (env : Env) (map_zero : Bool) (child_pid : Int) (v : MapVars)
    (hreq : v.gid_map ≠ Ptr.null ∨ map_zero = true)
    (hopen : ∀ path, env.open_ret path ≠ -1)
    (hwrite : ∀ path buf count, env.write_ret path buf count = (count : Int)) :
    ∃ buf count v1, gid_block env map_zero child_pid v =
      ⟨[Event.open_rdwr (setgroups_path child_pid),
        Event.write (setgroups_path child_pid) "deny".toList 4,
        Event.close (setgroups_path child_pid),
        Event.open_rdwr (gid_map_path child_pid),
        Event.write (gid_map_path child_pid) buf count,
        Event.close (gid_map_path child_pid)], some v1⟩ := by
  unfold gid_block
  rw [if_pos hreq]
  simp [update_map_ok env _ _ (hopen _) (hwrite _ _ _),
    proc_setgroups_write_ok env child_pid _ hopen hwrite]

theorem uid_block_gid_map (env : Env) (map_zero : Bool) (child_pid : Int) (v v1 : MapVars)
    (h : (uid_block env map_zero child_pid v).ret = some v1) : v1.gid_map = v.gid_map := by
  unfold uid_block at h
  split at h
  · simp only [Run.bind_eq, Run.pure_eq] at h
    unfold Run.bind at h
    split at h
    · simp at h
    · simp only [Option.some.injEq] at h
      rw [← h]
      unfold store
      split <;> split <;> rfl
  · simp at h; rw [← h]

end userns_child_exec

namespace userns_child_exec

/-- The pointers set by the option loop point to `optarg` strings, never to
`map_buf`. -/
theorem switch_opt_no_map_buf (name : CString) (o o1 : Opts) (r : GetoptRet)
    (h : switch_opt name o r = ⟨[], some o1⟩)
    (hu : o.uid_map ≠ Ptr.map_buf) (hg : o.gid_map ≠ Ptr.map_buf) :
    o1.uid_map ≠ Ptr.map_buf ∧ o1.gid_map ≠ Ptr.map_buf := by
  revert o1
  unfold switch_opt
  repeat' apply ite_cases (fun (x : Run Opts) => ∀ o1 : Opts, x = ⟨[], some o1⟩ →
    o1.uid_map ≠ Ptr.map_buf ∧ o1.gid_map ≠ Ptr.map_buf)
  all_goals first
    | (intro o1 h
       rw [usage_eq] at h
       exact absurd (congrArg Run.ret h) (by simp))
    | (intro o1 h
       have h1 := congrArg Run.ret h
       simp only [Run.pure_eq, Option.some.injEq] at h1
       subst h1
       exact ⟨by simp [hu], by simp [hg]⟩)

theorem getopt_loop_no_map_buf (name : CString) (opts : List GetoptRet) (o o1 : Opts)
    (h : getopt_loop name opts o = ⟨[], some o1⟩)
    (hu : o.uid_map ≠ Ptr.map_buf) (hg : o.gid_map ≠ Ptr.map_buf) :
    o1.uid_map ≠ Ptr.map_buf ∧ o1.gid_map ≠ Ptr.map_buf := by
  induction opts generalizing o with
  | nil =>
    simp only [getopt_loop, Run.pure_eq, Run.mk.injEq, Option.some.injEq, true_and] at h
    subst h
    exact ⟨hu, hg⟩
  | cons r rest ih =>
    rcases switch_opt_cases name o r with hs | ⟨o2, hs⟩
    · simp [getopt_loop, hs, usage_eq] at h
    · have h3 := congrArg Run.ret h
      simp only [getopt_loop, hs, Run.bind_eq, Run.bind_some] at h3
      obtain ⟨a1, a2⟩ := switch_opt_no_map_buf name o o2 r hs hu hg
      exact ih o2 (getopt_loop_of_ret name rest o2 o1 h3) a1 a2

/-- The file write of `update_map`: none if the file does not open, otherwise
the mapping with its commas as newlines. -/
theorem file_writes_update_map (env : Env) (mapping map_file : CString) :
    file_writes (update_map env mapping map_file).trace
      = if env.open_ret map_file = -1 then [] else [(map_file, with_newlines mapping)] := by
  have hr : replace_commas mapping.length 0 mapping = with_newlines mapping :=
    replace_commas_eq_map mapping
  by_cases h1 : env.open_ret map_file = -1 <;>
  by_cases h2 : env.write_ret map_file (with_newlines mapping) mapping.length
      = (mapping.length : Int) <;>
  simp [update_map, emit, exit, hr, h1, h2, file_writes]

/-- `update_map` returns exactly when the file opens and the write is complete. -/
theorem update_map_ret (env : Env) (mapping map_file : CString) :
    (update_map env mapping map_file).ret
      = if env.open_ret map_file ≠ -1
          ∧ env.write_ret map_file (with_newlines mapping) mapping.length = (mapping.length : Int)
        then some (with_newlines mapping) else none := by
  have hr : replace_commas mapping.length 0 mapping = with_newlines mapping :=
    replace_commas_eq_map mapping
  by_cases h1 : env.open_ret map_file = -1 <;>
  by_cases h2 : env.write_ret map_file (with_newlines mapping) mapping.length
      = (mapping.length : Int) <;>
  simp [update_map, emit, exit, hr, h1, h2]

theorem file_writes_proc_setgroups_write (env : Env) (child_pid : Int) (str : CString) :
    file_writes (proc_setgroups_write env child_pid str).trace
      = if env.open_ret (setgroups_path child_pid) = -1 then []
        else [(setgroups_path child_pid, str)] := by
  by_cases h1 : env.open_ret (setgroups_path child_pid) = -1 <;>
  by_cases h2 : env.open_errno (setgroups_path child_pid) = ENOENT <;>
  by_cases h3 : env.write_ret (setgroups_path child_pid) str str.length = -1 <;>
  simp [proc_setgroups_write, emit, h1, h2, h3, file_writes]

/-- With nothing yet in `map_buf`, the string a pointer of the options stands
for is the `optarg` it points to. -/
theorem deref_initial (p g : Ptr) :
    deref p ⟨p, g, []⟩ = (match p with
      | Ptr.optarg s => s
      | _ => []) := by
  cases p <;> rfl

/-- The mapping that the `uid_map` block hands to `update_map`. -/
theorem uid_block_eq (env : Env) (o : Opts) (child_pid : Int)
    (hreq : o.uid_map ≠ Ptr.null ∨ o.map_zero = true) :
    ∃ f : CString → MapVars,
      uid_block env o.map_zero child_pid ⟨o.uid_map, o.gid_map, []⟩
          = Run.bind (update_map env (uid_mapping env o) (uid_map_path child_pid))
              (fun s => pure (f s))
        ∧ (∀ s, (f s).gid_map = o.gid_map)
        ∧ (o.map_zero = false → o.uid_map ≠ Ptr.map_buf → ∀ s, (f s).map_buf = []) := by
  unfold uid_block
  rw [if_pos hreq]
  cases hz : o.map_zero with
  | true =>
    refine ⟨fun s => ⟨Ptr.map_buf, o.gid_map, s⟩, ?_, ?_, ?_⟩
    · simp only [if_true, deref, uid_mapping, hz, Run.bind_eq]
      rfl
    · intro s; rfl
    · intro h; exact absurd h (by simp)
  | false =>
    refine ⟨fun s => store o.uid_map s ⟨o.uid_map, o.gid_map, []⟩, ?_, ?_, ?_⟩
    · simp only [Bool.false_eq_true, if_false, uid_mapping, hz, Run.bind_eq, deref_initial]
    · intro s
      unfold store
      split <;> rfl
    · intro _ hnb s
      unfold store
      split
      · rename_i h; exact absurd h hnb
      · rfl

/-- The file writes of the `gid_map` block: `"deny"` to `setgroups` if it
opens, then the mapping, with its commas as newlines, to `gid_map` if it
opens. -/
theorem file_writes_gid_block (env : Env) (map_zero : Bool) (child_pid : Int) (v : MapVars)
    (hreq : v.gid_map ≠ Ptr.null ∨ map_zero = true) :
    file_writes (gid_block env map_zero child_pid v).trace
      = (if env.open_ret (setgroups_path child_pid) = -1 then []
          else [(setgroups_path child_pid, "deny".toList)])
        ++ (if env.open_ret (gid_map_path child_pid) = -1 then []
          else [(gid_map_path child_pid,
            with_newlines (if map_zero = true then
                snprintf MAP_BUF_SIZE ("0 ".toList ++ fmt_ld (env.getgid : Int) ++ " 1".toList)
              else deref v.gid_map v))]) := by
  unfold gid_block
  rw [if_pos hreq]
  simp only [Run.bind_eq, Run.bind_of_ret_some _ _ _ (proc_setgroups_write_ret env child_pid _),
    bind_pure_trace, file_writes_append, file_writes_proc_setgroups_write,
    file_writes_update_map]
  cases map_zero <;> simp [deref]

theorem deref_of_empty_buf (p : Ptr) (v : MapVars) (h : v.map_buf = []) :
    deref p v = (match p with
      | Ptr.optarg s => s
      | _ => []) := by
  cases p with
  | null => rfl
  | optarg s => rfl
  | map_buf => exact h

theorem bind_pure_ret {α β : Type} (x : Run α) (g : α → β) :
    (Run.bind x (fun a => (pure (g a) : Run β))).ret = x.ret.map g := by
  unfold Run.bind
  split <;> simp [*]

/-- The file writes of every run of `launch` in which both mappings are
requested. -/
theorem file_writes_launch (argv0 : CString) (o : Opts) (env : Env)
    (hu : o.uid_map ≠ Ptr.null ∨ o.map_zero = true)
    (hg : o.gid_map ≠ Ptr.null ∨ o.map_zero = true)
    (hnb : o.uid_map ≠ Ptr.map_buf) :
    file_writes (launch argv0 o env).trace
      = if env.pipe_ret = -1 ∨ env.clone_ret = -1
            ∨ env.open_ret (uid_map_path env.clone_ret) = -1 then []
        else
          (uid_map_path env.clone_ret, with_newlines (uid_mapping env o)) ::
            (if env.write_ret (uid_map_path env.clone_ret) (with_newlines (uid_mapping env o))
                  (uid_mapping env o).length ≠ ((uid_mapping env o).length : Int) then []
             else
              (if env.open_ret (setgroups_path env.clone_ret) = -1 then []
                else [(setgroups_path env.clone_ret, "deny".toList)])
              ++ (if env.open_ret (gid_map_path env.clone_ret) = -1 then []
                else [(gid_map_path env.clone_ret, with_newlines (gid_mapping env o))])) := by
  by_cases hpipe : env.pipe_ret = -1
  · simp [launch, emit, bail, exit, hpipe, file_writes]
  by_cases hclone : env.clone_ret = -1
  · simp [launch, emit, bail, exit, hpipe, hclone, file_writes]
  have h1 : file_writes [Event.pipe, Event.clone (o.flags ||| SIGCHLD)] = [] := rfl
  rw [launch_trace_gen argv0 o env hpipe hclone]
  simp only [file_writes_append, h1, file_writes_verbose_created, List.nil_append]
  obtain ⟨f, hue, hf1, hf2⟩ := uid_block_eq env o env.clone_ret hu
  rw [hue, bind_pure_trace, bind_pure_ret, file_writes_update_map, update_map_ret]
  by_cases hopen : env.open_ret (uid_map_path env.clone_ret) = -1
  · simp [hpipe, hclone, hopen, file_writes]
  by_cases hwrite : env.write_ret (uid_map_path env.clone_ret) (with_newlines (uid_mapping env o))
      (uid_mapping env o).length = ((uid_mapping env o).length : Int)
  · have hreq : (f (with_newlines (uid_mapping env o))).gid_map ≠ Ptr.null
        ∨ o.map_zero = true := by rw [hf1]; exact hg
    have hrest : (file_writes (match (gid_block env o.map_zero env.clone_ret
          (f (with_newlines (uid_mapping env o)))).ret with
        | none => []
        | some _ => [Event.close_pipe_wr, Event.waitpid env.clone_ret]
            ++ after_waitpid argv0 o env)) = [] := by
      cases (gid_block env o.map_zero env.clone_ret (f (with_newlines (uid_mapping env o)))).ret <;>
        simp [file_writes, file_writes_append, file_writes_after_waitpid]
    have hgm : (if o.map_zero = true then
          snprintf MAP_BUF_SIZE ("0 ".toList ++ fmt_ld (env.getgid : Int) ++ " 1".toList)
        else deref (f (with_newlines (uid_mapping env o))).gid_map
          (f (with_newlines (uid_mapping env o)))) = gid_mapping env o := by
      unfold gid_mapping
      cases hz : o.map_zero with
      | true => rfl
      | false =>
        simp only [Bool.false_eq_true, if_false]
        rw [deref_of_empty_buf _ _ (hf2 hz hnb _), hf1]
    simp only [hpipe, hclone, hopen, hwrite, ne_eq, not_true_eq_false, not_false_eq_true,
      and_self, if_true, if_false, or_self, Option.map_some', file_writes_append, hrest,
      List.append_nil, file_writes_gid_block env o.map_zero env.clone_ret _ hreq, hgm]
    rfl
  · simp [hpipe, hclone, hopen, hwrite, file_writes]

end userns_child_exec

/-- C4, as the code has it: when both a UID and a GID mapping are requested
and the options pass validation, the parent's file writes are, in every run,
exactly these, in this order.  Nothing is written if `pipe`, `clone` or the
open of `/proc/<child>/uid_map` fails.  Otherwise the UID mapping (commas as
newlines) is written to `uid_map` first; if that write is not complete nothing
follows; if it is, `"deny"` is written to `/proc/<child>/setgroups` when that
file opens, and then the GID mapping is written to `/proc/<child>/gid_map`
when that file opens.  When no step fails the writes are exactly three: the
UID mapping to `uid_map`, then `"deny"` to `setgroups`, then the GID mapping
to `gid_map`. -/
theorem C4_uid_map_then_deny_then_gid_map (argv0 : CString) (opts : List GetoptRet)
    (cmd : List CString) (env : Env) (o : userns_child_exec.Opts)
    (hparse : (userns_child_exec.getopt_loop argv0 opts userns_child_exec.Opts.init).ret = some o)
    (hcons : ¬ userns_child_exec.inconsistent o) (hcmd : cmd ≠ [])
    (hboth : (o.uid_map ≠ Ptr.null ∧ o.gid_map ≠ Ptr.null) ∨ o.map_zero = true) :
    file_writes (userns_child_exec.main argv0 opts cmd env).trace
        = (if env.pipe_ret = -1 ∨ env.clone_ret = -1
              ∨ env.open_ret (userns_child_exec.uid_map_path env.clone_ret) = -1 then []
           else
            (userns_child_exec.uid_map_path env.clone_ret,
                userns_child_exec.with_newlines (userns_child_exec.uid_mapping env o)) ::
              (if env.write_ret (userns_child_exec.uid_map_path env.clone_ret)
                    (userns_child_exec.with_newlines (userns_child_exec.uid_mapping env o))
                    (userns_child_exec.uid_mapping env o).length
                  ≠ ((userns_child_exec.uid_mapping env o).length : Int) then []
               else
                (if env.open_ret (userns_child_exec.setgroups_path env.clone_ret) = -1 then []
                  else [(userns_child_exec.setgroups_path env.clone_ret, "deny".toList)])
                ++ (if env.open_ret (userns_child_exec.gid_map_path env.clone_ret) = -1 then []
                  else [(userns_child_exec.gid_map_path env.clone_ret,
                    userns_child_exec.with_newlines (userns_child_exec.gid_mapping env o))])))
      ∧ (env.no_step_fails →
          file_writes (userns_child_exec.main argv0 opts cmd env).trace
            = [(userns_child_exec.uid_map_path env.clone_ret,
                  userns_child_exec.with_newlines (userns_child_exec.uid_mapping env o)),
               (userns_child_exec.setgroups_path env.clone_ret, "deny".toList),
               (userns_child_exec.gid_map_path env.clone_ret,
                  userns_child_exec.with_newlines (userns_child_exec.gid_mapping env o))]) := by
  have hureq : o.uid_map ≠ Ptr.null ∨ o.map_zero = true := by
    rcases hboth with h | h
    · exact Or.inl h.1
    · exact Or.inr h
  have hgreq : o.gid_map ≠ Ptr.null ∨ o.map_zero = true := by
    rcases hboth with h | h
    · exact Or.inl h.2
    · exact Or.inr h
  have hnb : o.uid_map ≠ Ptr.map_buf :=
    (userns_child_exec.getopt_loop_no_map_buf argv0 opts userns_child_exec.Opts.init o
      (userns_child_exec.getopt_loop_of_ret argv0 opts _ o hparse)
      (by simp [userns_child_exec.Opts.init]) (by simp [userns_child_exec.Opts.init])).1
  have key := userns_child_exec.file_writes_launch argv0 o env hureq hgreq hnb
  rw [userns_child_exec.main_of_valid argv0 opts cmd env o hparse hcons hcmd]
  refine ⟨key, fun hok => ?_⟩
  rw [key]
  simp [hok.pipe_ok, hok.clone_ok, hok.open_ok, hok.write_ok]

/-- C4 at a sample run: `-U -z sh`, every call succeeding. -/
theorem C4_witness :
    file_writes (userns_child_exec.main prog [⟨'U', []⟩, ⟨'z', []⟩] sh env_ok).trace
        = [("/proc/4242/uid_map".toList, "0 1000 1".toList),
           ("/proc/4242/setgroups".toList, "deny".toList),
           ("/proc/4242/gid_map".toList, "0 100 1".toList)] :=
  ((C4_uid_map_then_deny_then_gid_map prog [⟨'U', []⟩, ⟨'z', []⟩] sh env_ok
    ⟨CLONE_NEWUSER, false, true, Ptr.null, Ptr.null⟩ (by decide) (by decide) (by decide)
    (Or.inr rfl)).2
    ⟨by decide, by decide, fun _ => by simp [env_ok], fun _ _ _ => rfl, by decide⟩).trans
    (by decide)

/-- C4 as stated fails: in the run `-U -z sh` with every call succeeding the
three writes are the UID mapping, then `"deny"`, then the GID mapping; the
first write goes to `uid_map`, not to `setgroups`. -/
theorem C4_counterexample :
    file_writes (userns_child_exec.main prog [⟨'U', []⟩, ⟨'z', []⟩] sh env_ok).trace
        = [("/proc/4242/uid_map".toList, "0 1000 1".toList),
           ("/proc/4242/setgroups".toList, "deny".toList),
           ("/proc/4242/gid_map".toList, "0 100 1".toList)]
      ∧ (file_writes (userns_child_exec.main prog [⟨'U', []⟩, ⟨'z', []⟩] sh env_ok).trace).map
          Prod.fst
        ≠ ["/proc/4242/setgroups".toList, "/proc/4242/uid_map".toList,
           "/proc/4242/gid_map".toList] := by
  decide

/-! ## C5: commas become newlines -/

/-- C5: whenever `update_map` gets as far as writing (the map file opened), it
issues exactly one `write`, of a buffer `buf` and of count `buf.length`, where
`buf` has the length of the mapping string `s`, is `s` with every `','`
replaced by `'\n'` and every other byte unchanged, and contains no comma; for
`"0 1000 1,1 1001 1"` the buffer is `"0 1000 1\n1 1001 1"`. -/
theorem C5_update_map_writes_commas_as_newlines (env : Env) (s map_file : CString)
    (hopen : env.open_ret map_file ≠ -1) :
    ∃ buf,
      (userns_child_exec.update_map env s map_file).trace.filter Event.is_write
          = [Event.write map_file buf buf.length]
        ∧ buf.length = s.length
        ∧ buf = s.map (fun c => if c = ',' then '\n' else c)
        ∧ ',' ∉ buf
        ∧ (s = "0 1000 1,1 1001 1".toList → buf = "0 1000 1\n1 1001 1".toList) := by
  refine ⟨userns_child_exec.replace_commas s.length 0 s, ?_, ?_, ?_, ?_, ?_⟩
  · have hlen : (userns_child_exec.replace_commas s.length 0 s).length = s.length := by
      rw [userns_child_exec.replace_commas_eq_map, List.length_map]
    rw [hlen]
    by_cases h2 : env.write_ret map_file (userns_child_exec.replace_commas s.length 0 s) s.length
        = (s.length : Int) <;>
      simp [userns_child_exec.update_map, emit, exit, hopen, h2, Event.is_write]
  · rw [userns_child_exec.replace_commas_eq_map, List.length_map]
  · exact userns_child_exec.replace_commas_eq_map s
  · rw [userns_child_exec.replace_commas_eq_map]
    intro h
    rw [List.mem_map] at h
    obtain ⟨c, _, hc⟩ := h
    split at hc
    · exact absurd hc (by decide)
    · rename_i hne
      exact hne hc
  · intro hs
    subst hs
    decide

/-- C5 at a sample call: the mapping `"0 1000 1,1 1001 1"` written to
`/proc/4242/uid_map`. -/
theorem C5_witness :
    ∃ buf,
      (userns_child_exec.update_map env_ok "0 1000 1,1 1001 1".toList
            "/proc/4242/uid_map".toList).trace.filter Event.is_write
          = [Event.write "/proc/4242/uid_map".toList buf buf.length]
        ∧ buf.length = "0 1000 1,1 1001 1".toList.length
        ∧ buf = "0 1000 1,1 1001 1".toList.map (fun c => if c = ',' then '\n' else c)
        ∧ ',' ∉ buf
        ∧ ("0 1000 1,1 1001 1".toList = "0 1000 1,1 1001 1".toList
            → buf = "0 1000 1\n1 1001 1".toList) :=
  C5_update_map_writes_commas_as_newlines env_ok "0 1000 1,1 1001 1".toList
    "/proc/4242/uid_map".toList (by decide)

/-! ## C6: inconsistent options -/

theorem ite_or_lor (a b : Bool) (F : Nat) :
    (if (a || b) = true then F else 0) = (if a = true then F else 0) ||| (if b = true then F else 0) := by
  cases a <;> cases b <;> simp

theorem given_cons (c : Char) (r : GetoptRet) (rest : List GetoptRet) :
    given c (r :: rest) = (decide (r.opt = c) || given c rest) := by
  simp [given]

theorem requested_flags_cons (r : GetoptRet) (rest : List GetoptRet) :
    requested_flags (r :: rest) = requested_flags [r] ||| requested_flags rest := by
  unfold requested_flags
  simp only [given_cons, ite_or_lor]
  simp only [given, List.any_nil, Bool.false_eq_true, if_false, Nat.or_zero]
  ac_rfl

theorem requested_flags_nil : requested_flags [] = 0 := by decide

/-- The bit of `CLONE_NEWUSER` is set in the requested flags exactly when `-U`
is given. -/
theorem requested_flags_newuser (opts : List GetoptRet) :
    requested_flags opts &&& CLONE_NEWUSER ≠ 0 ↔ given 'U' opts = true := by
  unfold requested_flags
  cases given 'i' opts <;> cases given 'm' opts <;> cases given 'n' opts <;>
    cases given 'p' opts <;> cases given 'u' opts <;> cases given 'U' opts <;> decide

namespace userns_child_exec

/-- What one accepted option does to the variables of `main`. -/
theorem switch_opt_some (name : CString) (o o1 : Opts) (r : GetoptRet)
    (h : switch_opt name o r = ⟨[], some o1⟩) :
    o1.flags = o.flags ||| requested_flags [r]
      ∧ o1.map_zero = (o.map_zero || given 'z' [r])
      ∧ (o1.uid_map ≠ Ptr.null ↔ o.uid_map ≠ Ptr.null ∨ given 'M' [r] = true)
      ∧ (o1.gid_map ≠ Ptr.null ↔ o.gid_map ≠ Ptr.null ∨ given 'G' [r] = true) := by
  unfold switch_opt at h
  repeat' split at h
  all_goals first
    | (rw [usage_eq] at h; simp at h)
    | (simp only [Run.pure_eq, Run.mk.injEq, Option.some.injEq, true_and] at h
       subst h
       simp [requested_flags, given, *])

theorem getopt_loop_some (name : CString) (opts : List GetoptRet) (o o1 : Opts)
    (h : getopt_loop name opts o = ⟨[], some o1⟩) :
    o1.flags = o.flags ||| requested_flags opts
      ∧ o1.map_zero = (o.map_zero || given 'z' opts)
      ∧ (o1.uid_map ≠ Ptr.null ↔ o.uid_map ≠ Ptr.null ∨ given 'M' opts = true)
      ∧ (o1.gid_map ≠ Ptr.null ↔ o.gid_map ≠ Ptr.null ∨ given 'G' opts = true) := by
  induction opts generalizing o with
  | nil =>
    simp only [getopt_loop, Run.pure_eq, Run.mk.injEq, Option.some.injEq, true_and] at h
    subst h
    simp [requested_flags_nil, given]
  | cons r rest ih =>
    rcases switch_opt_cases name o r with hs | ⟨o2, hs⟩
    · simp [getopt_loop, hs, usage_eq] at h
    · have h2 : getopt_loop name rest o2 = ⟨[], some o1⟩ := by
        have h3 := congrArg Run.ret h
        simp only [getopt_loop, hs, Run.bind_eq, Run.bind_some] at h3
        exact getopt_loop_of_ret name rest o2 o1 h3
      obtain ⟨a1, a2, a3, a4⟩ := switch_opt_some name o o2 r hs
      obtain ⟨b1, b2, b3, b4⟩ := ih o2 h2
      refine ⟨?_, ?_, ?_, ?_⟩
      · rw [b1, a1, requested_flags_cons r rest, Nat.lor_assoc]
      · rw [b2, a2, given_cons, given_cons]; simp [given, Bool.or_assoc]
      · rw [b3, a3, given_cons, given_cons]; simp [given, or_assoc]
      · rw [b4, a4, given_cons, given_cons]; simp [given, or_assoc]

end userns_child_exec

/-- C6: whenever `-z` is given together with `-M` or `-G`, or any of `-M`, `-G`,
`-z` is given without `-U`, `userns_child_exec` ends in `usage()`: its whole
trace is the usage text on stderr followed by `exit(EXIT_FAILURE)`, so it has
created neither the pipe nor a child. -/
theorem C6_inconsistent_options_end_in_usage (argv0 : CString) (opts : List GetoptRet)
    (cmd : List CString) (env : Env)
    (h : (given 'z' opts = true ∧ (given 'M' opts = true ∨ given 'G' opts = true))
      ∨ ((given 'M' opts = true ∨ given 'G' opts = true ∨ given 'z' opts = true)
          ∧ given 'U' opts = false)) :
    (userns_child_exec.main argv0 opts cmd env).trace
        = [Event.stderr "Usage: %s [options] cmd [arg...]\n" [argv0], Event.exit EXIT_FAILURE]
      ∧ exit_status (userns_child_exec.main argv0 opts cmd env).trace = some EXIT_FAILURE
      ∧ (∀ e ∈ (userns_child_exec.main argv0 opts cmd env).trace, e.creates = false) := by
  have key : userns_child_exec.main argv0 opts cmd env = userns_child_exec.usage argv0 := by
    rcases userns_child_exec.getopt_loop_cases argv0 opts userns_child_exec.Opts.init
      with hl | ⟨o, hl⟩
    · simp [userns_child_exec.main, hl, userns_child_exec.usage_eq]
    · obtain ⟨a1, a2, a3, a4⟩ := userns_child_exec.getopt_loop_some argv0 opts _ o hl
      have hinc : userns_child_exec.inconsistent o := by
        unfold userns_child_exec.inconsistent
        have hU : (o.flags &&& CLONE_NEWUSER ≠ 0) ↔ given 'U' opts = true := by
          rw [a1]
          simp only [userns_child_exec.Opts.init, Nat.zero_or]
          exact requested_flags_newuser opts
        simp only [userns_child_exec.Opts.init, Bool.false_or, ne_eq, not_true_eq_false,
          false_or] at a2 a3 a4
        simp only [ne_eq, hU, a3, a4, a2]
        rcases h with ⟨hz, hm⟩ | ⟨hm, hu⟩
        · exact Or.inr ⟨hz, hm⟩
        · exact Or.inl ⟨hm, by simp [hu]⟩
      simp [userns_child_exec.main, hl, hinc, userns_child_exec.usage_eq]
  rw [key, userns_child_exec.usage_eq]
  refine ⟨rfl, rfl, ?_⟩
  intro e he
  simp only [List.mem_cons, List.mem_singleton, List.not_mem_nil, or_false] at he
  rcases he with he | he <;> rw [he] <;> rfl

/-- C6 at a sample run: `-U -z -M "0 1000 1" sh`. -/
theorem C6_witness :
    (userns_child_exec.main prog [⟨'U', []⟩, ⟨'z', []⟩, ⟨'M', "0 1000 1".toList⟩] sh env_ok).trace
        = [Event.stderr "Usage: %s [options] cmd [arg...]\n" [prog], Event.exit EXIT_FAILURE]
      ∧ exit_status (userns_child_exec.main prog
          [⟨'U', []⟩, ⟨'z', []⟩, ⟨'M', "0 1000 1".toList⟩] sh env_ok).trace = some EXIT_FAILURE
      ∧ (∀ e ∈ (userns_child_exec.main prog
          [⟨'U', []⟩, ⟨'z', []⟩, ⟨'M', "0 1000 1".toList⟩] sh env_ok).trace, e.creates = false) :=
  C6_inconsistent_options_end_in_usage prog [⟨'U', []⟩, ⟨'z', []⟩, ⟨'M', "0 1000 1".toList⟩] sh
    env_ok (Or.inl (by decide))

/-! ## C7: `-z` and the explicit records -/

theorem digitChar_ne_comma (d : Nat) (h : d < 10) : Nat.digitChar d ≠ ',' := by
  interval_cases d <;> decide

theorem toDigitsCore_no_comma (fuel n : Nat) (acc : List Char) (hacc : ',' ∉ acc) :
    ',' ∉ Nat.toDigitsCore 10 fuel n acc := by
  induction fuel generalizing n acc with
  | zero => simpa [Nat.toDigitsCore] using hacc
  | succ fuel ih =>
    have hd : ',' ∉ Nat.digitChar (n % 10) :: acc := by
      intro hmem
      rcases List.mem_cons.mp hmem with h | h
      · exact digitChar_ne_comma (n % 10) (Nat.mod_lt n (by decide)) h.symm
      · exact hacc h
    unfold Nat.toDigitsCore
    simp only []
    split
    · exact hd
    · exact ih _ _ hd

theorem fmt_ld_natCast (n : Nat) : fmt_ld (n : Int) = (Nat.repr n).toList := by
  unfold fmt_ld
  have h : ¬ ((n : Int) < 0) := by omega
  rw [if_neg h, Int.toNat_ofNat]

theorem fmt_ld_natCast_no_comma (n : Nat) : ',' ∉ fmt_ld (n : Int) := by
  rw [fmt_ld_natCast]
  exact toDigitsCore_no_comma _ _ [] (by simp)

theorem fmt_ld_natCast_length (n : Nat) (h : n < 2 ^ 32) : (fmt_ld (n : Int)).length ≤ 10 := by
  rw [fmt_ld_natCast]
  exact Nat.repr_length n 10 (by decide) (by omega)

namespace userns_child_exec

theorem root_record_no_comma (id : Nat) : ',' ∉ root_record id := by
  unfold root_record
  simp only [List.mem_append, not_or]
  exact ⟨⟨by decide, fmt_ld_natCast_no_comma id⟩, by decide⟩

/-- A 32-bit ID fits the 100-byte `map_buf`: `snprintf` stores the whole record. -/
theorem snprintf_root_record (id : Nat) (h : id < 2 ^ 32) :
    snprintf MAP_BUF_SIZE ("0 ".toList ++ fmt_ld (id : Int) ++ " 1".toList) = root_record id := by
  unfold snprintf root_record
  apply List.take_of_length_le
  have := fmt_ld_natCast_length id h
  simp only [List.length_append, MAP_BUF_SIZE]
  have h1 : "0 ".toList.length = 2 := rfl
  have h2 : " 1".toList.length = 2 := rfl
  omega

theorem replace_commas_root_record (id : Nat) :
    replace_commas (root_record id).length 0 (root_record id) = root_record id := by
  rw [replace_commas_eq_map]
  have h := root_record_no_comma id
  generalize root_record id = l at h
  induction l with
  | nil => rfl
  | cons c t ih =>
    have hc : c ≠ ',' := fun e => h (e ▸ List.mem_cons_self _ _)
    have ht : ',' ∉ t := fun e => h (List.mem_cons_of_mem _ e)
    simp [hc, ih ht]

/-- The parent's run after the option checks is the same for `-U -z` and for
`-U -M "0 <uid> 1" -G "0 <gid> 1"`. -/
theorem launch_map_zero_eq (argv0 : CString) (env : Env)
    (hu : env.getuid < 2 ^ 32) (hg : env.getgid < 2 ^ 32) :
    (launch argv0 ⟨CLONE_NEWUSER, false, true, Ptr.null, Ptr.null⟩ env).trace
      = (launch argv0 ⟨CLONE_NEWUSER, false, false, Ptr.optarg (root_record env.getuid),
          Ptr.optarg (root_record env.getgid)⟩ env).trace := by
  by_cases hpipe : env.pipe_ret = -1
  · simp [launch, emit, bail, exit, hpipe]
  by_cases hclone : env.clone_ret = -1
  · simp [launch, emit, bail, exit, hpipe, hclone]
  rw [launch_trace_gen _ _ _ hpipe hclone, launch_trace_gen _ _ _ hpipe hclone]
  simp only [uid_block, gid_block, snprintf_root_record _ hu, snprintf_root_record _ hg, deref,
    store, verbose_created, after_waitpid, ne_eq, not_true_eq_false, or_true, false_or, if_true,
    reduceCtorEq, not_false_eq_true, true_or, Run.bind_eq, Run.pure_eq, Bool.false_eq_true,
    or_false, if_false]
  rcases hum : update_map env (root_record env.getuid) (uid_map_path env.clone_ret)
    with ⟨tu, _ | su⟩
  · simp
  · rcases hgm : update_map env (root_record env.getgid) (gid_map_path env.clone_ret)
      with ⟨tg, _ | sg⟩ <;>
    simp [hgm, Run.bind_of_ret_some _ _ _ (proc_setgroups_write_ret env env.clone_ret _)]

end userns_child_exec

/-- C7: for a caller with 32-bit real user ID and group ID, `-U -z` makes the
parent issue exactly the same events, hence the same file writes with the same
paths and contents, as `-U -M "0 <uid> 1" -G "0 <gid> 1"`; and when no step
fails these writes are the record `"0 <uid> 1"` to `uid_map`, `"deny"` to
`setgroups` and the record `"0 <gid> 1"` to `gid_map`, although both records
are built in the one buffer `map_buf`. -/
theorem C7_map_zero_equals_explicit_records (argv0 : CString) (cmd : List CString) (env : Env)
    (hu : env.getuid < 2 ^ 32) (hg : env.getgid < 2 ^ 32) :
    (userns_child_exec.main argv0 [⟨'U', []⟩, ⟨'z', []⟩] cmd env).trace
        = (userns_child_exec.main argv0
            [⟨'U', []⟩, ⟨'M', userns_child_exec.root_record env.getuid⟩,
             ⟨'G', userns_child_exec.root_record env.getgid⟩] cmd env).trace
      ∧ (cmd ≠ [] → env.no_step_fails →
          file_writes (userns_child_exec.main argv0 [⟨'U', []⟩, ⟨'z', []⟩] cmd env).trace
            = [(userns_child_exec.uid_map_path env.clone_ret,
                  userns_child_exec.root_record env.getuid),
               (userns_child_exec.setgroups_path env.clone_ret, "deny".toList),
               (userns_child_exec.gid_map_path env.clone_ret,
                  userns_child_exec.root_record env.getgid)]) := by
  have hz : (userns_child_exec.getopt_loop argv0 [⟨'U', []⟩, ⟨'z', []⟩]
      userns_child_exec.Opts.init).ret = some ⟨CLONE_NEWUSER, false, true, Ptr.null, Ptr.null⟩ :=
    rfl
  have he : (userns_child_exec.getopt_loop argv0
      [⟨'U', []⟩, ⟨'M', userns_child_exec.root_record env.getuid⟩,
       ⟨'G', userns_child_exec.root_record env.getgid⟩] userns_child_exec.Opts.init).ret
      = some ⟨CLONE_NEWUSER, false, false, Ptr.optarg (userns_child_exec.root_record env.getuid),
          Ptr.optarg (userns_child_exec.root_record env.getgid)⟩ := rfl
  have hcz : ¬ userns_child_exec.inconsistent
      ⟨CLONE_NEWUSER, false, true, Ptr.null, Ptr.null⟩ := by decide
  have hce : ¬ userns_child_exec.inconsistent
      ⟨CLONE_NEWUSER, false, false, Ptr.optarg (userns_child_exec.root_record env.getuid),
        Ptr.optarg (userns_child_exec.root_record env.getgid)⟩ := by
    have hU : CLONE_NEWUSER ≠ 0 := by decide
    simp [userns_child_exec.inconsistent, hU]
  constructor
  · by_cases hcmd : cmd = []
    · subst hcmd
      simp [userns_child_exec.main, userns_child_exec.getopt_loop_of_ret _ _ _ _ hz,
        userns_child_exec.getopt_loop_of_ret _ _ _ _ he, hcz, hce, userns_child_exec.usage_eq]
    · rw [userns_child_exec.main_of_valid _ _ _ _ _ hz hcz hcmd,
        userns_child_exec.main_of_valid _ _ _ _ _ he hce hcmd]
      exact userns_child_exec.launch_map_zero_eq argv0 env hu hg
  · intro hcmd hok
    rw [userns_child_exec.main_of_valid _ _ _ _ _ hz hcz hcmd,
      userns_child_exec.launch_trace_gen _ _ _ hok.pipe_ok hok.clone_ok]
    simp only [userns_child_exec.uid_block, userns_child_exec.gid_block,
      userns_child_exec.snprintf_root_record _ hu, userns_child_exec.snprintf_root_record _ hg,
      userns_child_exec.deref, userns_child_exec.store, ne_eq, not_true_eq_false, or_true,
      false_or, if_true, Run.bind_eq, Run.pure_eq,
      userns_child_exec.update_map_ok env _ _ (hok.open_ok _) (hok.write_ok _ _ _),
      userns_child_exec.replace_commas_root_record,
      userns_child_exec.proc_setgroups_write_ok env _ _ hok.open_ok hok.write_ok,
      Run.bind_some]
    simp [file_writes, file_writes_append, userns_child_exec.file_writes_verbose_created,
      userns_child_exec.file_writes_after_waitpid]

/-- C7 at a sample run: user 1000, group 100, command `sh`. -/
theorem C7_witness :
    (userns_child_exec.main prog [⟨'U', []⟩, ⟨'z', []⟩] sh env_ok).trace
        = (userns_child_exec.main prog
            [⟨'U', []⟩, ⟨'M', userns_child_exec.root_record env_ok.getuid⟩,
             ⟨'G', userns_child_exec.root_record env_ok.getgid⟩] sh env_ok).trace
      ∧ (sh ≠ [] → env_ok.no_step_fails →
          file_writes (userns_child_exec.main prog [⟨'U', []⟩, ⟨'z', []⟩] sh env_ok).trace
            = [(userns_child_exec.uid_map_path env_ok.clone_ret,
                  userns_child_exec.root_record env_ok.getuid),
               (userns_child_exec.setgroups_path env_ok.clone_ret, "deny".toList),
               (userns_child_exec.gid_map_path env_ok.clone_ret,
                  userns_child_exec.root_record env_ok.getgid)]) :=
  C7_map_zero_equals_explicit_records prog sh env_ok (by decide) (by decide)

/-! ## C8: the exit status of the launcher -/

/-- C8, as the code has it: in both launchers the exit status does not depend
on the status with which the child exits.  `waitpid` is called with a NULL
status pointer, so that status never reaches the launcher: two runs that differ
only in the child's exit status have the same trace and the same exit status. -/
theorem C8_exit_status_ignores_child_status (argv0 : CString) (opts : List GetoptRet)
    (cmd : List CString) (env : Env) (s : Nat) :
    (userns_child_exec.main argv0 opts cmd { env with child_status := s }).trace
        = (userns_child_exec.main argv0 opts cmd env).trace
      ∧ exit_status (userns_child_exec.main argv0 opts cmd { env with child_status := s }).trace
        = exit_status (userns_child_exec.main argv0 opts cmd env).trace
      ∧ (ns_child_exec.main argv0 opts cmd { env with child_status := s }).trace
        = (ns_child_exec.main argv0 opts cmd env).trace
      ∧ exit_status (ns_child_exec.main argv0 opts cmd { env with child_status := s }).trace
        = exit_status (ns_child_exec.main argv0 opts cmd env).trace :=
  ⟨rfl, rfl, rfl, rfl⟩

/-- C8 as stated fails: with every step succeeding, `userns_child_exec -U -p -z sh`
whose child exits with status 0 does not exit with 0, and `ns_child_exec -p sh`
whose child exits with status 3 does not exit with 3. -/
theorem C8_counterexample :
    env_ok.child_status = 0
      ∧ exit_status (userns_child_exec.main prog [⟨'U', []⟩, ⟨'p', []⟩, ⟨'z', []⟩] sh
          env_ok).trace = some EXIT_FAILURE
      ∧ exit_status (userns_child_exec.main prog [⟨'U', []⟩, ⟨'p', []⟩, ⟨'z', []⟩] sh
          env_ok).trace ≠ some env_ok.child_status
      ∧ exit_status (ns_child_exec.main prog [⟨'p', []⟩] sh
          { env_ok with child_status := 3 }).trace = some EXIT_FAILURE
      ∧ exit_status (ns_child_exec.main prog [⟨'p', []⟩] sh
          { env_ok with child_status := 3 }).trace ≠ some 3 := by
  decide

/-! ## C9: a failed write of `"deny"` -/

namespace userns_child_exec

theorem update_map_head (env : Env) (mapping map_file : CString) :
    ∃ post, (update_map env mapping map_file).trace = Event.open_rdwr map_file :: post
      ∧ (env.open_ret map_file ≠ -1 →
          ∃ buf count rest, post = Event.write map_file buf count :: rest) := by
  by_cases h1 : env.open_ret map_file = -1
  · exact ⟨[Event.stderr "ERROR: open %s: %s\n" [map_file], Event.exit EXIT_FAILURE],
      by simp [update_map, emit, exit, h1], fun h => absurd h1 h⟩
  · by_cases h2 : env.write_ret map_file (replace_commas mapping.length 0 mapping) mapping.length
        = (mapping.length : Int)
    · exact ⟨[Event.write map_file (replace_commas mapping.length 0 mapping) mapping.length,
          Event.close map_file],
        by simp [update_map, emit, exit, h1, h2], fun _ => ⟨_, _, _, rfl⟩⟩
    · exact ⟨[Event.write map_file (replace_commas mapping.length 0 mapping) mapping.length,
          Event.stderr "ERROR: write %s: %s\n" [map_file], Event.exit EXIT_FAILURE],
        by simp [update_map, emit, exit, h1, h2], fun _ => ⟨_, _, _, rfl⟩⟩

theorem proc_setgroups_write_deny_fails (env : Env) (child_pid : Int)
    (hopen : env.open_ret (setgroups_path child_pid) ≠ -1)
    (hwrite : env.write_ret (setgroups_path child_pid) "deny".toList 4 = -1) :
    proc_setgroups_write env child_pid "deny".toList =
      ⟨[Event.open_rdwr (setgroups_path child_pid),
        Event.write (setgroups_path child_pid) "deny".toList 4,
        Event.stderr "ERROR: open %s: %s\n" [setgroups_path child_pid],
        Event.close (setgroups_path child_pid)], some ()⟩ := by
  have h4 : "deny".toList.length = 4 := rfl
  simp only [proc_setgroups_write, h4, hopen, hwrite, emit, if_false, if_true, Run.bind_eq,
    Run.bind_some, Run.pure_eq]
  rfl

theorem gid_block_deny_fails (env : Env) (map_zero : Bool) (child_pid : Int) (v : MapVars)
    (hreq : v.gid_map ≠ Ptr.null ∨ map_zero = true)
    (hopen : env.open_ret (setgroups_path child_pid) ≠ -1)
    (hwrite : env.write_ret (setgroups_path child_pid) "deny".toList 4 = -1) :
    ∃ post, (gid_block env map_zero child_pid v).trace
        = [Event.open_rdwr (setgroups_path child_pid),
           Event.write (setgroups_path child_pid) "deny".toList 4,
           Event.stderr "ERROR: open %s: %s\n" [setgroups_path child_pid],
           Event.close (setgroups_path child_pid),
           Event.open_rdwr (gid_map_path child_pid)] ++ post
      ∧ (env.open_ret (gid_map_path child_pid) ≠ -1 →
          ∃ buf count rest, post = Event.write (gid_map_path child_pid) buf count :: rest) := by
  unfold gid_block
  rw [if_pos hreq]
  simp only [Run.bind_eq, proc_setgroups_write_deny_fails env child_pid hopen hwrite,
    Run.bind_some, bind_pure_trace]
  have key : ∀ M : CString, ∃ post,
      [Event.open_rdwr (setgroups_path child_pid),
        Event.write (setgroups_path child_pid) "deny".toList 4,
        Event.stderr "ERROR: open %s: %s\n" [setgroups_path child_pid],
        Event.close (setgroups_path child_pid)]
          ++ (update_map env M (gid_map_path child_pid)).trace
        = [Event.open_rdwr (setgroups_path child_pid),
           Event.write (setgroups_path child_pid) "deny".toList 4,
           Event.stderr "ERROR: open %s: %s\n" [setgroups_path child_pid],
           Event.close (setgroups_path child_pid),
           Event.open_rdwr (gid_map_path child_pid)] ++ post
      ∧ (env.open_ret (gid_map_path child_pid) ≠ -1 →
          ∃ buf count rest, post = Event.write (gid_map_path child_pid) buf count :: rest) := by
    intro M
    obtain ⟨post, h1, h2⟩ := update_map_head env M (gid_map_path child_pid)
    exact ⟨post, by rw [h1]; rfl, h2⟩
  exact key _

end userns_child_exec

/-- C9, as the code has it: when a GID mapping is requested, the run reaches
the GID step, `/proc/<child>/setgroups` opens and the write of `"deny"` to it
returns -1, the failure is reported on stderr and nothing more: the launcher
closes the file and goes on to open `/proc/<child>/gid_map`, and when that
open succeeds it writes the GID mapping. -/
theorem C9_failed_deny_is_reported_not_fatal (argv0 : CString) (opts : List GetoptRet)
    (cmd : List CString) (env : Env) (o : userns_child_exec.Opts)
    (hparse : (userns_child_exec.getopt_loop argv0 opts userns_child_exec.Opts.init).ret = some o)
    (hcons : ¬ userns_child_exec.inconsistent o) (hcmd : cmd ≠ [])
    (hgid : o.gid_map ≠ Ptr.null ∨ o.map_zero = true)
    (hpipe : env.pipe_ret ≠ -1) (hclone : env.clone_ret ≠ -1)
    (huid : (userns_child_exec.uid_block env o.map_zero env.clone_ret
        ⟨o.uid_map, o.gid_map, []⟩).ret ≠ none)
    (hopen : env.open_ret (userns_child_exec.setgroups_path env.clone_ret) ≠ -1)
    (hwrite : env.write_ret (userns_child_exec.setgroups_path env.clone_ret) "deny".toList 4
        = -1) :
    ∃ pre post,
      (userns_child_exec.main argv0 opts cmd env).trace
          = pre ++
            [Event.write (userns_child_exec.setgroups_path env.clone_ret) "deny".toList 4,
             Event.stderr "ERROR: open %s: %s\n" [userns_child_exec.setgroups_path env.clone_ret],
             Event.close (userns_child_exec.setgroups_path env.clone_ret),
             Event.open_rdwr (userns_child_exec.gid_map_path env.clone_ret)] ++ post
        ∧ (env.open_ret (userns_child_exec.gid_map_path env.clone_ret) ≠ -1 →
            ∃ buf count rest,
              post = Event.write (userns_child_exec.gid_map_path env.clone_ret) buf count
                :: rest) := by
  rw [userns_child_exec.main_of_valid argv0 opts cmd env o hparse hcons hcmd,
    userns_child_exec.launch_trace_gen argv0 o env hpipe hclone]
  cases hu : (userns_child_exec.uid_block env o.map_zero env.clone_ret
      ⟨o.uid_map, o.gid_map, []⟩).ret with
  | none => exact absurd hu huid
  | some v1 =>
    have hv1 : v1.gid_map = o.gid_map :=
      userns_child_exec.uid_block_gid_map env o.map_zero env.clone_ret _ v1 hu
    obtain ⟨post, h1, h2⟩ := userns_child_exec.gid_block_deny_fails env o.map_zero env.clone_ret
      v1 (by rw [hv1]; exact hgid) hopen hwrite
    simp only [h1]
    refine ⟨[Event.pipe, Event.clone (o.flags ||| SIGCHLD)]
        ++ userns_child_exec.verbose_created argv0 o env
        ++ (userns_child_exec.uid_block env o.map_zero env.clone_ret
            ⟨o.uid_map, o.gid_map, []⟩).trace
        ++ [Event.open_rdwr (userns_child_exec.setgroups_path env.clone_ret)],
      post ++ (match (userns_child_exec.gid_block env o.map_zero env.clone_ret v1).ret with
        | none => []
        | some _ => [Event.close_pipe_wr, Event.waitpid env.clone_ret]
            ++ userns_child_exec.after_waitpid argv0 o env), ?_, ?_⟩
    · simp only [List.append_assoc, List.cons_append, List.nil_append]
    · intro h
      obtain ⟨buf, count, rest, hp⟩ := h2 h
      exact ⟨buf, count, rest ++ _, by rw [hp]; rfl⟩

/-- C9 at a sample run: `-U -z sh` where the write to `/proc/4242/setgroups`
is rejected. -/
theorem C9_witness :
    ∃ pre post,
      (userns_child_exec.main prog [⟨'U', []⟩, ⟨'z', []⟩] sh env_setgroups_write_fails).trace
          = pre ++
            [Event.write (userns_child_exec.setgroups_path env_setgroups_write_fails.clone_ret)
               "deny".toList 4,
             Event.stderr "ERROR: open %s: %s\n"
               [userns_child_exec.setgroups_path env_setgroups_write_fails.clone_ret],
             Event.close (userns_child_exec.setgroups_path env_setgroups_write_fails.clone_ret),
             Event.open_rdwr
               (userns_child_exec.gid_map_path env_setgroups_write_fails.clone_ret)] ++ post
        ∧ (env_setgroups_write_fails.open_ret
              (userns_child_exec.gid_map_path env_setgroups_write_fails.clone_ret) ≠ -1 →
            ∃ buf count rest,
              post = Event.write
                (userns_child_exec.gid_map_path env_setgroups_write_fails.clone_ret) buf count
                :: rest) :=
  C9_failed_deny_is_reported_not_fatal prog [⟨'U', []⟩, ⟨'z', []⟩] sh env_setgroups_write_fails
    ⟨CLONE_NEWUSER, false, true, Ptr.null, Ptr.null⟩ (by decide) (by decide) (by decide)
    (Or.inr rfl) (by decide) (by decide) (by decide) (by decide) (by decide)

/-- C9 as stated fails: in the run `-U -z sh` where `/proc/4242/setgroups`
opens and the write of `"deny"` to it returns -1, the launcher prints the error
and then opens and writes `/proc/4242/gid_map`, closes the pipe and waits for
the child. -/
theorem C9_counterexample :
    (userns_child_exec.main prog [⟨'U', []⟩, ⟨'z', []⟩] sh env_setgroups_write_fails).trace
      = [Event.pipe, Event.clone (CLONE_NEWUSER ||| SIGCHLD),
         Event.open_rdwr "/proc/4242/uid_map".toList,
         Event.write "/proc/4242/uid_map".toList "0 1000 1".toList 8,
         Event.close "/proc/4242/uid_map".toList,
         Event.open_rdwr "/proc/4242/setgroups".toList,
         Event.write "/proc/4242/setgroups".toList "deny".toList 4,
         Event.stderr "ERROR: open %s: %s\n" ["/proc/4242/setgroups".toList],
         Event.close "/proc/4242/setgroups".toList,
         Event.open_rdwr "/proc/4242/gid_map".toList,
         Event.write "/proc/4242/gid_map".toList "0 100 1".toList 7,
         Event.close "/proc/4242/gid_map".toList,
         Event.close_pipe_wr, Event.waitpid 4242, Event.exit EXIT_FAILURE] := by
  decide

/-! ## C10: the flag word of `clone` -/

theorem namespace_options_cons (r : GetoptRet) (rest : List GetoptRet)
    (h : namespace_options (r :: rest) = true) :
    (r.opt = 'i' ∨ r.opt = 'm' ∨ r.opt = 'n' ∨ r.opt = 'p' ∨ r.opt = 'u' ∨ r.opt = 'U')
      ∧ namespace_options rest = true := by
  simpa [namespace_options, or_assoc] using h

namespace userns_child_exec

theorem switch_opt_namespace (name : CString) (o : Opts) (r : GetoptRet)
    (h : r.opt = 'i' ∨ r.opt = 'm' ∨ r.opt = 'n' ∨ r.opt = 'p' ∨ r.opt = 'u' ∨ r.opt = 'U') :
    switch_opt name o r = ⟨[], some { o with flags := o.flags ||| requested_flags [r] }⟩ := by
  rcases h with h | h | h | h | h | h <;>
    simp [switch_opt, requested_flags, given, h]

theorem getopt_loop_namespace (name : CString) (opts : List GetoptRet) (o : Opts)
    (h : namespace_options opts = true) :
    getopt_loop name opts o = ⟨[], some { o with flags := o.flags ||| requested_flags opts }⟩ := by
  induction opts generalizing o with
  | nil => simp [getopt_loop, requested_flags_nil]
  | cons r rest ih =>
    obtain ⟨h1, h2⟩ := namespace_options_cons r rest h
    simp [getopt_loop, switch_opt_namespace name o r h1, ih _ h2, requested_flags_cons r rest,
      Nat.lor_assoc]

end userns_child_exec

namespace ns_child_exec

theorem ns_switch_opt_namespace (name : CString) (o : Opts) (r : GetoptRet)
    (h : r.opt = 'i' ∨ r.opt = 'm' ∨ r.opt = 'n' ∨ r.opt = 'p' ∨ r.opt = 'u' ∨ r.opt = 'U') :
    switch_opt name o r = ⟨[], some { o with flags := o.flags ||| requested_flags [r] }⟩ := by
  rcases h with h | h | h | h | h | h <;>
    simp [switch_opt, requested_flags, given, h]

theorem ns_getopt_loop_namespace (name : CString) (opts : List GetoptRet) (o : Opts)
    (h : namespace_options opts = true) :
    getopt_loop name opts o = ⟨[], some { o with flags := o.flags ||| requested_flags opts }⟩ := by
  induction opts generalizing o with
  | nil => simp [getopt_loop, requested_flags_nil]
  | cons r rest ih =>
    obtain ⟨h1, h2⟩ := namespace_options_cons r rest h
    simp [getopt_loop, ns_switch_opt_namespace name o r h1, ih _ h2, requested_flags_cons r rest,
      Nat.lor_assoc]

end ns_child_exec

/-- Each namespace bit of the flag word is set exactly when its option is given. -/
theorem requested_flags_bits (opts : List GetoptRet) :
    ((requested_flags opts ||| SIGCHLD) &&& CLONE_NEWIPC ≠ 0 ↔ given 'i' opts = true)
      ∧ ((requested_flags opts ||| SIGCHLD) &&& CLONE_NEWNS ≠ 0 ↔ given 'm' opts = true)
      ∧ ((requested_flags opts ||| SIGCHLD) &&& CLONE_NEWNET ≠ 0 ↔ given 'n' opts = true)
      ∧ ((requested_flags opts ||| SIGCHLD) &&& CLONE_NEWPID ≠ 0 ↔ given 'p' opts = true)
      ∧ ((requested_flags opts ||| SIGCHLD) &&& CLONE_NEWUTS ≠ 0 ↔ given 'u' opts = true)
      ∧ ((requested_flags opts ||| SIGCHLD) &&& CLONE_NEWUSER ≠ 0 ↔ given 'U' opts = true)
      ∧ (requested_flags opts ||| SIGCHLD) &&& SIGCHLD = SIGCHLD
      ∧ (requested_flags opts ||| SIGCHLD) = requested_flags opts + SIGCHLD := by
  unfold requested_flags
  cases given 'i' opts <;> cases given 'm' opts <;> cases given 'n' opts <;>
    cases given 'p' opts <;> cases given 'u' opts <;> cases given 'U' opts <;> decide

theorem clone_flags_launch (argv0 : CString) (o : userns_child_exec.Opts) (env : Env)
    (hpipe : env.pipe_ret ≠ -1) :
    clone_flags (userns_child_exec.launch argv0 o env).trace = some (o.flags ||| SIGCHLD) := by
  by_cases hclone : env.clone_ret = -1
  · simp [userns_child_exec.launch, emit, bail, exit, hpipe, hclone, clone_flags]
  · rw [userns_child_exec.launch_trace_gen argv0 o env hpipe hclone]
    rfl

/-- C10: for every sequence of the options `-i -m -n -p -u -U` followed by a
command, the flag word passed to `clone` by `userns_child_exec` (once its pipe
exists) and by `ns_child_exec` is `SIGCHLD` combined with the requested
namespace flags: each `CLONE_NEW*` bit is set exactly when its option occurs
in the sequence, the `SIGCHLD` bits are set, and the word is the sum of
`SIGCHLD` and the requested flags, so no other bit is set. -/
theorem C10_clone_flags_are_exactly_the_requested (argv0 : CString) (opts : List GetoptRet)
    (cmd : List CString) (env : Env)
    (hns : namespace_options opts = true) (hcmd : cmd ≠ []) (hpipe : env.pipe_ret ≠ -1) :
    clone_flags (userns_child_exec.main argv0 opts cmd env).trace
        = some (requested_flags opts ||| SIGCHLD)
      ∧ clone_flags (ns_child_exec.main argv0 opts cmd env).trace
        = some (requested_flags opts ||| SIGCHLD)
      ∧ ((requested_flags opts ||| SIGCHLD) &&& CLONE_NEWIPC ≠ 0 ↔ given 'i' opts = true)
      ∧ ((requested_flags opts ||| SIGCHLD) &&& CLONE_NEWNS ≠ 0 ↔ given 'm' opts = true)
      ∧ ((requested_flags opts ||| SIGCHLD) &&& CLONE_NEWNET ≠ 0 ↔ given 'n' opts = true)
      ∧ ((requested_flags opts ||| SIGCHLD) &&& CLONE_NEWPID ≠ 0 ↔ given 'p' opts = true)
      ∧ ((requested_flags opts ||| SIGCHLD) &&& CLONE_NEWUTS ≠ 0 ↔ given 'u' opts = true)
      ∧ ((requested_flags opts ||| SIGCHLD) &&& CLONE_NEWUSER ≠ 0 ↔ given 'U' opts = true)
      ∧ (requested_flags opts ||| SIGCHLD) &&& SIGCHLD = SIGCHLD
      ∧ (requested_flags opts ||| SIGCHLD) = requested_flags opts + SIGCHLD := by
  refine ⟨?_, ?_, requested_flags_bits opts⟩
  · have hl := userns_child_exec.getopt_loop_namespace argv0 opts userns_child_exec.Opts.init hns
    have hcons : ¬ userns_child_exec.inconsistent
        { userns_child_exec.Opts.init with
          flags := userns_child_exec.Opts.init.flags ||| requested_flags opts } := by
      simp [userns_child_exec.inconsistent, userns_child_exec.Opts.init]
    rw [userns_child_exec.main_of_valid argv0 opts cmd env _ (by rw [hl]) hcons hcmd,
      clone_flags_launch argv0 _ env hpipe]
    simp [userns_child_exec.Opts.init]
  · have hl := ns_child_exec.ns_getopt_loop_namespace argv0 opts ⟨0, false⟩ hns
    by_cases hclone : env.clone_ret = -1 <;>
      simp [ns_child_exec.main, hl, hcmd, emit, bail, exit, hclone, clone_flags]

/-- C10 at a sample run: the options `-p -U -i -p` (with a repetition) and the
command `sh`. -/
theorem C10_witness :
    clone_flags (userns_child_exec.main prog opts_pUip sh env_ok).trace
        = some (requested_flags opts_pUip ||| SIGCHLD)
      ∧ clone_flags (ns_child_exec.main prog opts_pUip sh env_ok).trace
        = some (requested_flags opts_pUip ||| SIGCHLD)
      ∧ ((requested_flags opts_pUip ||| SIGCHLD) &&& CLONE_NEWIPC ≠ 0 ↔ given 'i' opts_pUip = true)
      ∧ ((requested_flags opts_pUip ||| SIGCHLD) &&& CLONE_NEWNS ≠ 0 ↔ given 'm' opts_pUip = true)
      ∧ ((requested_flags opts_pUip ||| SIGCHLD) &&& CLONE_NEWNET ≠ 0 ↔ given 'n' opts_pUip = true)
      ∧ ((requested_flags opts_pUip ||| SIGCHLD) &&& CLONE_NEWPID ≠ 0 ↔ given 'p' opts_pUip = true)
      ∧ ((requested_flags opts_pUip ||| SIGCHLD) &&& CLONE_NEWUTS ≠ 0 ↔ given 'u' opts_pUip = true)
      ∧ ((requested_flags opts_pUip ||| SIGCHLD) &&& CLONE_NEWUSER ≠ 0
          ↔ given 'U' opts_pUip = true)
      ∧ (requested_flags opts_pUip ||| SIGCHLD) &&& SIGCHLD = SIGCHLD
      ∧ (requested_flags opts_pUip ||| SIGCHLD) = requested_flags opts_pUip + SIGCHLD :=
  C10_clone_flags_are_exactly_the_requested prog opts_pUip sh env_ok
    (by decide) (by decide) (by decide)

/-! ## C11: a short or failed write in `update_map` -/

/-- The test `write(...) != map_len` compares an `ssize_t` with a `size_t`, so
the return value is first converted to 64-bit unsigned; for a return value and
a length in the range of `ssize_t` this is the comparison of the two integers,
as `update_map` has it. -/
theorem ssize_t_ne_size_t_iff (r : Int) (n : Nat) (hlo : -(2 ^ 63) ≤ r) (hhi : r < 2 ^ 63)
    (hn : (n : Int) < 2 ^ 63) : r % 2 ^ 64 ≠ (n : Int) % 2 ^ 64 ↔ r ≠ (n : Int) := by
  constructor
  · intro h e
    exact h (by rw [e])
  · intro h e
    apply h
    omega

/-- C11: in `update_map`, once the map file is open, whenever the `write`
returns anything other than the full length of the transformed mapping (fewer
bytes, or -1), the function reports the error and calls `exit(EXIT_FAILURE)`:
its trace is the open, the one write, the message, the exit.  No second `write`
follows; and in every run of `update_map` at most one `write` is issued. -/
theorem C11_short_write_is_fatal (env : Env) (mapping map_file : CString)
    (hopen : env.open_ret map_file ≠ -1)
    (hshort : env.write_ret map_file
        (userns_child_exec.replace_commas mapping.length 0 mapping) mapping.length
        ≠ (mapping.length : Int)) :
    userns_child_exec.update_map env mapping map_file
        = ⟨[Event.open_rdwr map_file,
            Event.write map_file (userns_child_exec.replace_commas mapping.length 0 mapping)
              mapping.length,
            Event.stderr "ERROR: write %s: %s\n" [map_file],
            Event.exit EXIT_FAILURE], none⟩
      ∧ exit_status (userns_child_exec.update_map env mapping map_file).trace = some EXIT_FAILURE
      ∧ List.countP Event.is_write (userns_child_exec.update_map env mapping map_file).trace = 1
      ∧ (∀ env1 : Env,
          List.countP Event.is_write (userns_child_exec.update_map env1 mapping map_file).trace
            ≤ 1) := by
  have h : userns_child_exec.update_map env mapping map_file
      = ⟨[Event.open_rdwr map_file,
          Event.write map_file (userns_child_exec.replace_commas mapping.length 0 mapping)
            mapping.length,
          Event.stderr "ERROR: write %s: %s\n" [map_file],
          Event.exit EXIT_FAILURE], none⟩ := by
    simp [userns_child_exec.update_map, emit, exit, hopen, hshort]
  refine ⟨h, by rw [h]; rfl, by rw [h]; rfl, ?_⟩
  intro env1
  by_cases h1 : env1.open_ret map_file = -1 <;>
  by_cases h2 : env1.write_ret map_file
      (userns_child_exec.replace_commas mapping.length 0 mapping) mapping.length
      = (mapping.length : Int) <;>
  simp [userns_child_exec.update_map, emit, exit, h1, h2, Event.is_write, List.countP_cons]

/-- C11 at a sample call: the 8 bytes of `"0 1000 1"` for `/proc/4242/uid_map`,
of which the `write` transfers 3. -/
theorem C11_witness :
    userns_child_exec.update_map env_short_write "0 1000 1".toList "/proc/4242/uid_map".toList
        = ⟨[Event.open_rdwr "/proc/4242/uid_map".toList,
            Event.write "/proc/4242/uid_map".toList
              (userns_child_exec.replace_commas "0 1000 1".toList.length 0 "0 1000 1".toList)
              "0 1000 1".toList.length,
            Event.stderr "ERROR: write %s: %s\n" ["/proc/4242/uid_map".toList],
            Event.exit EXIT_FAILURE], none⟩
      ∧ exit_status (userns_child_exec.update_map env_short_write "0 1000 1".toList
          "/proc/4242/uid_map".toList).trace = some EXIT_FAILURE
      ∧ List.countP Event.is_write (userns_child_exec.update_map env_short_write
          "0 1000 1".toList "/proc/4242/uid_map".toList).trace = 1
      ∧ (∀ env1 : Env,
          List.countP Event.is_write (userns_child_exec.update_map env1 "0 1000 1".toList
            "/proc/4242/uid_map".toList).trace ≤ 1) :=
  C11_short_write_is_fatal env_short_write "0 1000 1".toList "/proc/4242/uid_map".toList
    (by decide) (by decide)

/-! ## C13: the option `-v` of `ns_child_exec` -/

namespace ns_child_exec

theorem ns_usage_eq {α : Type} (name : CString) :
    (usage name : Run α)
      = ⟨[Event.stderr "Usage: %s [options] cmd [arg...]\n" [name], Event.exit EXIT_FAILURE], none⟩ := rfl

/-- One pass through the `switch` either ends in `usage()` or leaves `verbose`
as it was; with the option `-v` it ends in `usage()`. -/
theorem ns_switch_opt_cases (name : CString) (o : Opts) (r : GetoptRet) :
    (switch_opt name o r = usage name
      ∨ ∃ o1, switch_opt name o r = ⟨[], some o1⟩ ∧ o1.verbose = o.verbose)
    ∧ (r.opt = 'v' → switch_opt name o r = usage name) := by
  constructor
  · unfold switch_opt
    repeat' apply ite_cases (fun (x : Run Opts) => x = usage name
      ∨ ∃ o1 : Opts, x = ⟨[], some o1⟩ ∧ o1.verbose = o.verbose)
    all_goals first
      | exact Or.inl rfl
      | exact Or.inr ⟨_, rfl, rfl⟩
  · intro h
    simp [switch_opt, h, ns_usage_eq]

theorem ns_getopt_loop_cases (name : CString) (opts : List GetoptRet) (o : Opts) :
    (getopt_loop name opts o = usage name
      ∨ ∃ o1, getopt_loop name opts o = ⟨[], some o1⟩ ∧ o1.verbose = o.verbose)
    ∧ (given 'v' opts = true → getopt_loop name opts o = usage name) := by
  induction opts generalizing o with
  | nil => exact ⟨Or.inr ⟨o, rfl, rfl⟩, by simp [given]⟩
  | cons r rest ih =>
    obtain ⟨hs, hv⟩ := ns_switch_opt_cases name o r
    rcases hs with hs | ⟨o1, hs, hverb⟩
    · exact ⟨Or.inl (by simp [getopt_loop, hs, ns_usage_eq]),
        fun _ => by simp [getopt_loop, hs, ns_usage_eq]⟩
    · obtain ⟨ih1, ih2⟩ := ih o1
      have hstep : getopt_loop name (r :: rest) o = getopt_loop name rest o1 := by
        rcases ih1 with h1 | ⟨o2, h1, _⟩ <;> simp [getopt_loop, hs, h1, ns_usage_eq]
      rw [hstep]
      refine ⟨?_, ?_⟩
      · rcases ih1 with h1 | ⟨o2, h1, h2⟩
        · exact Or.inl h1
        · exact Or.inr ⟨o2, h1, by rw [h2, hverb]⟩
      · intro hg
        rw [given_cons] at hg
        by_cases hr : r.opt = 'v'
        · rw [hv hr, ns_usage_eq] at hs
          simp at hs
        · apply ih2
          simpa [hr] using hg

/-- Whatever follows it, an option sequence that contains `-v` makes
`ns_child_exec` end in `usage()`. -/
theorem ns_main_verbose_is_usage (argv0 : CString) (opts : List GetoptRet) (cmd : List CString)
    (env : Env) (h : given 'v' opts = true) :
    (main argv0 opts cmd env).trace
      = [Event.stderr "Usage: %s [options] cmd [arg...]\n" [argv0], Event.exit EXIT_FAILURE] := by
  have hl := (ns_getopt_loop_cases argv0 opts ⟨0, false⟩).2 h
  simp [main, hl, ns_usage_eq]

end ns_child_exec

/-- C13, the run that breaks it: `ns_child_exec -v sh`.  In the `switch`,
`case 'v': verbose = 1;` has no `break`, so control falls into
`default: usage(argv[0])`: the whole trace is the usage text and
`exit(EXIT_FAILURE)`, with no `clone` and no verbose message.  The sibling
`userns_child_exec`, whose `case 'v'` has its `break`, run with `-v sh` creates
the child and prints both verbose messages. -/
theorem C13_verbose_option_ends_in_usage :
    (ns_child_exec.main ns_prog [⟨'v', []⟩] sh env_ok).trace
        = [Event.stderr "Usage: %s [options] cmd [arg...]\n" [ns_prog], Event.exit EXIT_FAILURE]
      ∧ (userns_child_exec.main prog [⟨'v', []⟩] sh env_ok).trace
        = [Event.pipe, Event.clone SIGCHLD,
           Event.stdout "%s: PID of child created by clone() is %ld\n" [prog, "4242".toList],
           Event.close_pipe_wr, Event.waitpid 4242,
           Event.stdout "%s: terminating\n" [prog],
           Event.exit EXIT_FAILURE] := by
  decide

/-! ## C14: the mount path of a frame -/

theorem toNat_ofNat_byte (b : Nat) (h : b < 256) : (Char.ofNat b).toNat = b := by
  have hv : b.isValidChar := Or.inl (by omega)
  simp [Char.ofNat, Char.toNat, Char.ofNatAux, hv, UInt32.toNat]

theorem ofNat_byte_inj (a b : Nat) (ha : a < 256) (hb : b < 256)
    (h : Char.ofNat a = Char.ofNat b) : a = b := by
  have := congrArg Char.toNat h
  rwa [toNat_ofNat_byte a ha, toNat_ofNat_byte b hb] at this

namespace multi_pidns

/-- The byte that `%c` writes for the counter `level`. -/
theorem suffix_byte_lt (level : Int) : ((('0'.toNat : Int) + level) % 256).toNat < 256 := by
  have h1 : (0 : Int) ≤ (('0'.toNat : Int) + level) % 256 := Int.emod_nonneg _ (by decide)
  have h2 : (('0'.toNat : Int) + level) % 256 < 256 := Int.emod_lt_of_pos _ (by decide)
  omega

/-- The mount path is `"/proc"` followed by the suffix byte, unless that byte
is NUL, which ends the string after `"/proc"`. -/
theorem mount_point_eq (level : Int) :
    mount_point level
      = "/proc".toList ++
          (if ((('0'.toNat : Int) + level) % 256).toNat = 0 then []
           else [Char.ofNat ((('0'.toNat : Int) + level) % 256).toNat]) := by
  have hlt := suffix_byte_lt level
  unfold mount_point snprintf c_str
  generalize ((('0'.toNat : Int) + level) % 256).toNat = b at hlt
  rw [List.take_of_length_le (by simp [PATH_MAX])]
  have h0 : (Char.ofNat b = Char.ofNat 0) ↔ b = 0 :=
    ⟨fun h => ofNat_byte_inj b 0 hlt (by decide) h, fun h => by rw [h]⟩
  by_cases hb : b = 0
  · subst hb
    decide
  · have hne : Char.ofNat b ≠ Char.ofNat 0 := fun h => hb (h0.mp h)
    rw [if_neg hb]
    have hp : "/proc".toList = ['/', 'p', 'r', 'o', 'c'] := rfl
    rw [hp]
    simp only [List.cons_append, List.nil_append]
    repeat rw [List.takeWhile_cons_of_pos (by decide)]
    rw [List.takeWhile_cons_of_pos (by simpa using hne)]
    rfl

theorem mount_point_eq_iff (a b : Int) :
    mount_point a = mount_point b
      ↔ ((('0'.toNat : Int) + a) % 256).toNat = ((('0'.toNat : Int) + b) % 256).toNat := by
  have ha := suffix_byte_lt a
  have hb := suffix_byte_lt b
  rw [mount_point_eq, mount_point_eq, List.append_right_inj]
  generalize ((('0'.toNat : Int) + a) % 256).toNat = x at ha
  generalize ((('0'.toNat : Int) + b) % 256).toNat = y at hb
  by_cases hx : x = 0 <;> by_cases hy : y = 0
  · simp [hx, hy]
  · simp [hx, hy, Ne.symm hy]
  · simp [hx, hy]
  · simp only [hx, hy, if_false, List.cons.injEq, and_true]
    exact ⟨ofNat_byte_inj x y ha hb, fun h => by rw [h]⟩

theorem mount_point_eq_proc_iff (a : Int) :
    mount_point a = "/proc".toList ↔ ((('0'.toNat : Int) + a) % 256).toNat = 0 := by
  rw [mount_point_eq]
  by_cases hx : ((('0'.toNat : Int) + a) % 256).toNat = 0
  · simp [hx]
  · simp [hx]

end multi_pidns

/-- C14, as the code has it: the mount path is `"/proc"` followed by the one
byte `('0' + level) mod 256`.  Two counters give the same path exactly when they
are congruent modulo 256, and the path is `"/proc"` itself exactly when the
counter is congruent to 208 modulo 256 (the byte is then NUL).  In particular,
for two different counters from 0 to 207 the paths are different strings and
neither is `"/proc"`. -/
theorem C14_mount_point_specific_modulo_256 (L1 L2 : Int) :
    (multi_pidns.mount_point L1 = multi_pidns.mount_point L2 ↔ L1 % 256 = L2 % 256)
      ∧ (multi_pidns.mount_point L1 = "/proc".toList ↔ L1 % 256 = 208)
      ∧ (0 ≤ L1 → L1 < 208 → 0 ≤ L2 → L2 < 208 → L1 ≠ L2 →
          multi_pidns.mount_point L1 ≠ multi_pidns.mount_point L2
            ∧ multi_pidns.mount_point L1 ≠ "/proc".toList
            ∧ multi_pidns.mount_point L2 ≠ "/proc".toList) := by
  have h0 : ('0'.toNat : Int) = 48 := by decide
  have key : ∀ a b : Int, multi_pidns.mount_point a = multi_pidns.mount_point b
      ↔ a % 256 = b % 256 := by
    intro a b
    rw [multi_pidns.mount_point_eq_iff, h0]
    omega
  have proc : ∀ a : Int, multi_pidns.mount_point a = "/proc".toList ↔ a % 256 = 208 := by
    intro a
    rw [multi_pidns.mount_point_eq_proc_iff, h0]
    omega
  refine ⟨key L1 L2, proc L1, ?_⟩
  intro a1 a2 b1 b2 hne
  refine ⟨?_, ?_, ?_⟩
  · rw [Ne, key]
    omega
  · rw [Ne, proc]
    omega
  · rw [Ne, proc]
    omega

/-- C14 at the counters 3 and 7. -/
theorem C14_witness :
    (multi_pidns.mount_point 3 = multi_pidns.mount_point 7 ↔ (3 : Int) % 256 = 7 % 256)
      ∧ (multi_pidns.mount_point 3 = "/proc".toList ↔ (3 : Int) % 256 = 208)
      ∧ ((0 : Int) ≤ 3 → (3 : Int) < 208 → (0 : Int) ≤ 7 → (7 : Int) < 208 → (3 : Int) ≠ 7 →
          multi_pidns.mount_point 3 ≠ multi_pidns.mount_point 7
            ∧ multi_pidns.mount_point 3 ≠ "/proc".toList
            ∧ multi_pidns.mount_point 7 ≠ "/proc".toList) :=
  C14_mount_point_specific_modulo_256 3 7

/-- C14 as stated fails: the different counters 0 and 256 give the same mount
path `"/proc0"`, and the counter 208 gives the mount path `"/proc"` itself. -/
theorem C14_counterexample :
    (0 : Int) ≠ 256
      ∧ multi_pidns.mount_point 0 = "/proc0".toList
      ∧ multi_pidns.mount_point 256 = "/proc0".toList
      ∧ multi_pidns.mount_point 208 = "/proc".toList := by
  decide

/-! ## C12: the recursion of `multi_pidns` -/

namespace multi_pidns

end multi_pidns
/-- The sample run `multi_pidns 2` spelled out: the outermost process clones
and waits, then exits; the frame with counter 1 mounts at `/proc1`, clones and
waits, and is killed on its return; the frame with counter 0 mounts at
`/proc0` and runs `sleep`. -/
theorem processes_sample :
    multi_pidns.processes pidns_env_ok (some 2) 5
      = [[Event.clone_with (CLONE_NEWPID ||| SIGCHLD) 1, Event.waitpid 101,
          Event.exit EXIT_SUCCESS],
         [Event.mkdir "/proc1".toList 0o555,
          Event.mount "proc".toList "/proc1".toList "proc".toList,
          Event.stdout "Mounting procfs at %s\n" ["/proc1".toList],
          Event.clone_with (CLONE_NEWPID ||| SIGCHLD) 0, Event.waitpid 100,
          Event.killed SIGSEGV],
         [Event.mkdir "/proc0".toList 0o555,
          Event.mount "proc".toList "/proc0".toList "proc".toList,
          Event.stdout "Mounting procfs at %s\n" ["/proc0".toList],
          Event.stdout "Final child sleeping\n" [],
          Event.execlp "sleep".toList ["sleep".toList, "1000".toList]]] := by
  decide

end Namespaces
